import Mathlib

/-!
ConcurrentQueue and ThreadPoolExecutor.

A shallow embedding of `concurrent_queue.hpp` and `thread_pool_executor.hpp`.

Modelling conventions.

* A `std::queue<Type>` is a `List`: `front()` is the head, `push`/`emplace` append at the
  back, `pop()` drops the head.
* `size_t` values are `Nat`; no arithmetic is performed on them by the code, only comparisons.
* A member function that may throw returns a pair: the outcome (`Except Exception _`) and the
  object state after the call.  The mutex makes every member function one atomic step.
* `cv.wait_for(lock, timeout, pred)` returns either because `pred` holds or because the timeout
  elapsed; the code after it looks only at the state at the moment of return, so a timed
  operation is the atomic step taken at that moment.  Whatever other threads did during the
  wait is a sequence of earlier steps.  `cv.notify_*` does not change the state.
* The executor is a transition system: its threads (callers of `submit` and `shutdown`, and
  the workers in `poll_queue`) take atomic steps, each one critical section of the queue mutex
  or of `workers_map_mx`, in any interleaving.
-/

namespace concurrent

/-- The exception classes thrown by the queue: the four classes declared in
concurrent_queue.hpp and `std::invalid_argument`. -/
inductive Exception where
  | invalid_argument
  | TimeoutError
  | QueueIsClosed
  | QueueIsFull
  | QueueIsEmpty
  deriving DecidableEq

/-- Equality of outcomes is decidable, so that concrete runs can be evaluated. -/
instance instDecidableEqOutcome {ε β : Type} [DecidableEq ε] [DecidableEq β] :
    DecidableEq (Except ε β) := fun x y =>
  match x, y with
  | Except.ok a, Except.ok b =>
    if h : a = b then isTrue (congrArg Except.ok h)
    else isFalse (fun h2 => h (Except.ok.inj h2))
  | Except.error a, Except.error b =>
    if h : a = b then isTrue (congrArg Except.error h)
    else isFalse (fun h2 => h (Except.error.inj h2))
  | Except.ok _, Except.error _ => isFalse (fun h => Except.noConfusion h)
  | Except.error _, Except.ok _ => isFalse (fun h => Except.noConfusion h)

/-- The data members of `ConcurrentQueue<Type, Queue>` (lines 303-311), without the mutex and
the condition variable. -/
structure ConcurrentQueue (α : Type) where
  queue : List α
  is_shutdown_flag : Bool
  is_terminated_flag : Bool
  max_size : Nat
  deriving DecidableEq

namespace ConcurrentQueue

variable {α : Type}

/-- The constructor `ConcurrentQueue(size_type max_size)` (lines 61-67).  The initialiser list
is `max_size(max_size), is_shutdown_flag(false)`: the member `is_terminated_flag` is not
initialised there, so its starting value is whatever the default-initialised
`std::atomic_bool` holds, passed here as `indeterminate`. -/
def construct (max_size : Nat) (indeterminate : Bool) : Except Exception (ConcurrentQueue α) :=
  if max_size == 0 then
    Except.error Exception.invalid_argument
  else
    Except.ok { queue := [], is_shutdown_flag := false, is_terminated_flag := indeterminate,
                max_size := max_size }

/-- The member `empty()` (lines 89-93). -/
def empty (q : ConcurrentQueue α) : Bool := q.queue.isEmpty

/-- The member `size()` (lines 95-99). -/
def size (q : ConcurrentQueue α) : Nat := q.queue.length

/-- The private member `full()` (lines 313-316): `queue.size() >= max_size`. -/
def full (q : ConcurrentQueue α) : Bool := decide (q.queue.length ≥ q.max_size)

/-- The member `push(Type&& value)` (lines 101-113). -/
def push_move (q : ConcurrentQueue α) (value : α) : Except Exception Unit × ConcurrentQueue α :=
  if q.is_shutdown_flag then (Except.error Exception.QueueIsClosed, q)
  else if q.full then (Except.error Exception.QueueIsFull, q)
  else (Except.ok (), { q with queue := q.queue ++ [value] })

/-- The member `push_for(Type&& value, Duration timeout)` (lines 115-133), at the moment
`wait_for` returns. -/
def push_for_move (q : ConcurrentQueue α) (value : α) (_timeout : Nat) :
    Except Exception Unit × ConcurrentQueue α :=
  if q.is_shutdown_flag then (Except.error Exception.QueueIsClosed, q)
  else if q.full then (Except.error Exception.TimeoutError, q)
  else (Except.ok (), { q with queue := q.queue ++ [value] })

/-- The member `push(const Type& value)` (lines 135-147). -/
def push (q : ConcurrentQueue α) (value : α) : Except Exception Unit × ConcurrentQueue α :=
  if q.is_shutdown_flag then (Except.error Exception.QueueIsClosed, q)
  else if q.full then (Except.error Exception.QueueIsFull, q)
  else (Except.ok (), { q with queue := q.queue ++ [value] })

/-- The member `push_for(const Type& value, Duration timeout)` (lines 149-167), at the moment
`wait_for` returns. -/
def push_for (q : ConcurrentQueue α) (value : α) (_timeout : Nat) :
    Except Exception Unit × ConcurrentQueue α :=
  if q.is_shutdown_flag then (Except.error Exception.QueueIsClosed, q)
  else if q.full then (Except.error Exception.TimeoutError, q)
  else (Except.ok (), { q with queue := q.queue ++ [value] })

/-- The member `emplace(Args&&... args)` (lines 169-182); `value` is the element built from
`args`. -/
def emplace (q : ConcurrentQueue α) (value : α) : Except Exception Unit × ConcurrentQueue α :=
  if q.is_shutdown_flag then (Except.error Exception.QueueIsClosed, q)
  else if q.full then (Except.error Exception.QueueIsFull, q)
  else (Except.ok (), { q with queue := q.queue ++ [value] })

/-- The member `emplace_for(Duration timeout, Args&&... args)` (lines 184-202), at the moment
`wait_for` returns. -/
def emplace_for (q : ConcurrentQueue α) (_timeout : Nat) (value : α) :
    Except Exception Unit × ConcurrentQueue α :=
  if q.is_shutdown_flag then (Except.error Exception.QueueIsClosed, q)
  else if q.full then (Except.error Exception.TimeoutError, q)
  else (Except.ok (), { q with queue := q.queue ++ [value] })

/-- The member `void pull(Type& value)` (lines 204-215); the value assigned to the out
parameter is the outcome. -/
def pull_out (q : ConcurrentQueue α) : Except Exception α × ConcurrentQueue α :=
  if q.is_shutdown_flag then (Except.error Exception.QueueIsClosed, q)
  else
    match q.queue with
    | [] => (Except.error Exception.QueueIsEmpty, q)
    | value :: rest => (Except.ok value, { q with queue := rest })

/-- The member `void pull_for(Type& value, Duration timeout)` (lines 217-234), at the moment
`wait_for` returns.  Both the wait predicate and the check after it read `is_shutdown_flag`. -/
def pull_for_out (q : ConcurrentQueue α) (_timeout : Nat) :
    Except Exception α × ConcurrentQueue α :=
  if q.is_shutdown_flag then (Except.error Exception.QueueIsClosed, q)
  else
    match q.queue with
    | [] => (Except.error Exception.TimeoutError, q)
    | value :: rest => (Except.ok value, { q with queue := rest })

/-- The member `Type pull()` (lines 236-251). -/
def pull (q : ConcurrentQueue α) : Except Exception α × ConcurrentQueue α :=
  if q.is_shutdown_flag then (Except.error Exception.QueueIsClosed, q)
  else
    match q.queue with
    | [] => (Except.error Exception.QueueIsEmpty, q)
    | value :: rest => (Except.ok value, { q with queue := rest })

/-- The member `Type pull_for(Duration timeout)` (lines 253-274), at the moment `wait_for`
returns.  Both the wait predicate and the check after it read `is_terminated_flag`. -/
def pull_for (q : ConcurrentQueue α) (_timeout : Nat) : Except Exception α × ConcurrentQueue α :=
  if q.is_terminated_flag then (Except.error Exception.QueueIsClosed, q)
  else
    match q.queue with
    | [] => (Except.error Exception.TimeoutError, q)
    | value :: rest => (Except.ok value, { q with queue := rest })

/-- The member `shutdown()` (lines 276-282). -/
def shutdown (q : ConcurrentQueue α) : ConcurrentQueue α :=
  { q with is_shutdown_flag := true }

/-- The member `terminate()` (lines 284-291). -/
def terminate (q : ConcurrentQueue α) : ConcurrentQueue α :=
  { q with is_shutdown_flag := true, is_terminated_flag := true }

/-- The member `is_shutdown()` (lines 293-296). -/
def is_shutdown (q : ConcurrentQueue α) : Bool := q.is_shutdown_flag

/-- The member `is_terminated()` (lines 298-301). -/
def is_terminated (q : ConcurrentQueue α) : Bool := q.is_terminated_flag

end ConcurrentQueue

/-- One call of a public mutating member of the queue. -/
inductive QueueOp (α : Type) where
  | push_move (value : α)
  | push (value : α)
  | push_for_move (value : α) (timeout : Nat)
  | push_for (value : α) (timeout : Nat)
  | emplace (value : α)
  | emplace_for (timeout : Nat) (value : α)
  | pull_out
  | pull
  | pull_for_out (timeout : Nat)
  | pull_for (timeout : Nat)
  | shutdown
  | terminate

/-- The queue state after one call; the outcome of the call is dropped. -/
def QueueOp.apply {α : Type} (op : QueueOp α) (q : ConcurrentQueue α) : ConcurrentQueue α :=
  match op with
  | QueueOp.push_move v => (q.push_move v).2
  | QueueOp.push v => (q.push v).2
  | QueueOp.push_for_move v t => (q.push_for_move v t).2
  | QueueOp.push_for v t => (q.push_for v t).2
  | QueueOp.emplace v => (q.emplace v).2
  | QueueOp.emplace_for t v => (q.emplace_for t v).2
  | QueueOp.pull_out => q.pull_out.2
  | QueueOp.pull => q.pull.2
  | QueueOp.pull_for_out t => (q.pull_for_out t).2
  | QueueOp.pull_for t => (q.pull_for t).2
  | QueueOp.shutdown => q.shutdown
  | QueueOp.terminate => q.terminate

/-- The queue state after a sequence of calls, applied from left to right. -/
def runOps {α : Type} (ops : List (QueueOp α)) (q : ConcurrentQueue α) : ConcurrentQueue α :=
  ops.foldl (fun s op => op.apply s) q

end concurrent

/-- Modelled from the spec: `ThreadPoolExecutor::shutdown` calls `queue.close()`, a member that
`ConcurrentQueue` does not declare.  The spec (4.2, 9) has the executor's shutdown invoke the
queue's drain-oriented close, "closes the queue for input (drain semantics)", which in the
queue is `shutdown()`. -/
def concurrent.ConcurrentQueue.close {α : Type} (q : concurrent.ConcurrentQueue α) :
    concurrent.ConcurrentQueue α :=
  q.shutdown

/-- Modelled from the spec: `ThreadPoolExecutor::is_active` calls `queue.is_closed()`, a member
that `ConcurrentQueue` does not declare.  The spec (4.2, 9) has it query the drain-oriented
closed state, "true while the queue's input is not closed", which in the queue is
`is_shutdown()`. -/
def concurrent.ConcurrentQueue.is_closed {α : Type} (q : concurrent.ConcurrentQueue α) : Bool :=
  q.is_shutdown

/-- A task, `std::function<void()>`: opaque to the executor, identified here by a number. -/
abbrev Func := Nat

/-- The program point of a worker thread inside `poll_queue` (lines 96-121). -/
inductive WorkerPoint where
  /-- In `queue.pull_for(func, keep_alive_time)`, line 103. -/
  | at_pull_for
  /-- In `func()`, line 104, with the task pulled. -/
  | at_func (func : Func)
  /-- In the handler of `TimeoutError`, before `lock.lock()`, lines 106-107. -/
  | caught_TimeoutError
  /-- In the handler of `QueueIsClosed`, before `on_worker_exit`, lines 115-120. -/
  | caught_QueueIsClosed
  deriving DecidableEq

/-- The data members of `ThreadPoolExecutor` (lines 85-94).  A `std::thread::id` is the index
of the thread in the order of creation, and `workers_map` pairs each registered id with the
program point of that thread.  Four further fields record what the C++ object does not store:
`thread_count` (threads created so far), `executed` (the tasks whose `func()` call returned, in
order), and the number of callers of `submit` that stand between its atomic steps. -/
structure ThreadPoolExecutor where
  pool_size : Nat
  max_pool_size : Nat
  max_queue_size : Nat
  keep_alive_time : Nat
  workers_map : List (Nat × WorkerPoint)
  queue : concurrent.ConcurrentQueue Func
  thread_count : Nat
  executed : List Func
  callers_after_emplace : Nat
  callers_before_lock : Nat
  deriving DecidableEq

namespace ThreadPoolExecutor

open concurrent

/-- Lines 27-28 and 51-52: create a thread running `poll_queue` and register it. -/
def start_worker (e : ThreadPoolExecutor) : ThreadPoolExecutor :=
  { e with workers_map := e.workers_map ++ [(e.thread_count, WorkerPoint.at_pull_for)],
           thread_count := e.thread_count + 1 }

/-- The loop of the constructor, lines 26-29, with `n` iterations left. -/
def start_workers : Nat → ThreadPoolExecutor → ThreadPoolExecutor
  | 0, e => e
  | n + 1, e => start_workers n (start_worker e)

/-- The constructor (lines 19-30).  `max_pool_size` defaults to 0 and `max_queue_size` to the
largest `size_t` in the source; `indeterminate` is the starting value of the queue's
`is_terminated_flag`.  The queue member is constructed before the body runs, so its
`invalid_argument` leaves no executor. -/
def construct (pool_size max_pool_size keep_alive_time max_queue_size : Nat)
    (indeterminate : Bool) : Except Exception ThreadPoolExecutor :=
  match ConcurrentQueue.construct max_queue_size indeterminate with
  | Except.error ex => Except.error ex
  | Except.ok q =>
    Except.ok (start_workers pool_size
      { pool_size := pool_size,
        max_pool_size := if max_pool_size != 0 then max_pool_size else pool_size,
        max_queue_size := max_queue_size,
        keep_alive_time := keep_alive_time,
        workers_map := [],
        queue := q,
        thread_count := 0,
        executed := [],
        callers_after_emplace := 0,
        callers_before_lock := 0 })

/-- The member `submit(F func)` (lines 41-55) run with no other thread in between. -/
def submit (e : ThreadPoolExecutor) (func : Func) : Except Exception Unit × ThreadPoolExecutor :=
  match e.queue.emplace func with
  | (Except.error ex, _) => (Except.error ex, e)
  | (Except.ok _, q) =>
    let e1 := { e with queue := q }
    if !e1.queue.empty then
      if e1.workers_map.length < e1.max_pool_size then (Except.ok (), start_worker e1)
      else (Except.ok (), e1)
    else (Except.ok (), e1)

/-- The member `is_active()` (lines 57-60). -/
def is_active (e : ThreadPoolExecutor) : Bool := !e.queue.is_closed

/-- The member `shutdown()` (lines 62-65). -/
def shutdown (e : ThreadPoolExecutor) : ThreadPoolExecutor :=
  { e with queue := e.queue.close }

/-- The predicate on which `wait()` returns (lines 67-73): `workers_map.empty()`. -/
def wait_returns (e : ThreadPoolExecutor) : Bool := e.workers_map.isEmpty

/-- The member `on_worker_exit` (lines 123-135) run by thread `id`: erase its own entry. -/
def on_worker_exit (e : ThreadPoolExecutor) (id : Nat) : ThreadPoolExecutor :=
  { e with workers_map := e.workers_map.filter (fun w => w.1 != id) }

/-- Move thread `id` to another program point of `poll_queue`. -/
def goto (e : ThreadPoolExecutor) (id : Nat) (p : WorkerPoint) : ThreadPoolExecutor :=
  { e with workers_map := e.workers_map.map (fun w => if w.1 == id then (id, p) else w) }

/-- One atomic step of thread `id` in `poll_queue` (lines 96-121); `none` when no such thread
is registered, or when `pull_for` throws what the loop does not catch.
* at line 103, `pull_for(func, keep_alive_time)` returns or throws;
* at line 104, `func()` returns and the loop starts over;
* in the `TimeoutError` handler the registry lock is taken, and either the loop is left with
  the lock held, so that `on_worker_exit` erases the entry in the same critical section, or
  the lock is released and the loop starts over;
* in the `QueueIsClosed` handler the loop is left and `on_worker_exit` takes the lock. -/
def poll_queue (e : ThreadPoolExecutor) (id : Nat) : Option ThreadPoolExecutor :=
  match e.workers_map.lookup id with
  | none => none
  | some WorkerPoint.at_pull_for =>
    match e.queue.pull_for_out e.keep_alive_time with
    | (Except.ok func, q) => some (goto { e with queue := q } id (WorkerPoint.at_func func))
    | (Except.error Exception.TimeoutError, _) => some (goto e id WorkerPoint.caught_TimeoutError)
    | (Except.error Exception.QueueIsClosed, _) =>
      some (goto e id WorkerPoint.caught_QueueIsClosed)
    | (Except.error _, _) => none
  | some (WorkerPoint.at_func func) =>
    some (goto { e with executed := e.executed ++ [func] } id WorkerPoint.at_pull_for)
  | some WorkerPoint.caught_TimeoutError =>
    if e.workers_map.length > e.pool_size then some (on_worker_exit e id)
    else some (goto e id WorkerPoint.at_pull_for)
  | some WorkerPoint.caught_QueueIsClosed => some (on_worker_exit e id)

/-- Line 44 of `submit` as one atomic step: `queue.emplace(func)`.  When it throws, the
exception leaves `submit` and nothing has changed. -/
def submit_emplace (e : ThreadPoolExecutor) (func : Func) : ThreadPoolExecutor :=
  match e.queue.emplace func with
  | (Except.error _, _) => e
  | (Except.ok _, q) => { e with queue := q, callers_after_emplace := e.callers_after_emplace + 1 }

/-- Line 47 of `submit` as one atomic step, by a caller whose `emplace` succeeded: the test
`!queue.empty()`. -/
def submit_empty_test (e : ThreadPoolExecutor) : Option ThreadPoolExecutor :=
  if e.callers_after_emplace = 0 then none
  else if !e.queue.empty then
    some { e with callers_after_emplace := e.callers_after_emplace - 1,
                  callers_before_lock := e.callers_before_lock + 1 }
  else some { e with callers_after_emplace := e.callers_after_emplace - 1 }

/-- Lines 48-53 of `submit` as one atomic step under `workers_map_mx`, by a caller that saw
the queue non-empty. -/
def submit_locked (e : ThreadPoolExecutor) : Option ThreadPoolExecutor :=
  if e.callers_before_lock = 0 then none
  else if e.workers_map.length < e.max_pool_size then
    some (start_worker { e with callers_before_lock := e.callers_before_lock - 1 })
  else some { e with callers_before_lock := e.callers_before_lock - 1 }

/-- The atomic steps that the threads of a program using the executor can take. -/
inductive Action where
  | submit_emplace (func : Func)
  | submit_empty_test
  | submit_locked
  | shutdown
  | poll_queue (id : Nat)
  deriving DecidableEq

/-- One atomic step; `none` when the step cannot be taken in this state. -/
def step (e : ThreadPoolExecutor) : Action → Option ThreadPoolExecutor
  | Action.submit_emplace func => some (submit_emplace e func)
  | Action.submit_empty_test => submit_empty_test e
  | Action.submit_locked => submit_locked e
  | Action.shutdown => some (shutdown e)
  | Action.poll_queue id => poll_queue e id

/-- An execution: the steps of a list taken one after the other. -/
def run : List Action → ThreadPoolExecutor → Option ThreadPoolExecutor
  | [], e => some e
  | a :: rest, e =>
    match step e a with
    | none => none
    | some e1 => run rest e1

/-- The executions that start at construction. -/
def runFromConstruction (pool_size max_pool_size keep_alive_time max_queue_size : Nat)
    (indeterminate : Bool) (actions : List Action) : Option ThreadPoolExecutor :=
  match construct pool_size max_pool_size keep_alive_time max_queue_size indeterminate with
  | Except.error _ => none
  | Except.ok e => run actions e

end ThreadPoolExecutor

namespace concurrent

/-- The items of the worked examples. -/
inductive Item where
  | A | B | C | D
  deriving DecidableEq

/-- Call `push(const Type&)` on each value of a list in order; `none` as soon as one call
throws. -/
def push_all {α : Type} : List α → ConcurrentQueue α → Option (ConcurrentQueue α)
  | [], q => some q
  | x :: xs, q =>
    match q.push x with
    | (Except.ok _, q1) => push_all xs q1
    | (Except.error _, _) => none

/-- Call `Type pull()` `n` times; the values returned, in order, and the final state, or `none`
as soon as one call throws. -/
def pull_n {α : Type} : Nat → ConcurrentQueue α → Option (List α × ConcurrentQueue α)
  | 0, q => some ([], q)
  | n + 1, q =>
    match q.pull with
    | (Except.ok v, q1) =>
      match pull_n n q1 with
      | some (vs, q2) => some (v :: vs, q2)
      | none => none
    | (Except.error _, _) => none

/-- Call `void pull(Type&)` `n` times; the values assigned, in order, and the final state, or
`none` as soon as one call throws. -/
def pull_out_n {α : Type} : Nat → ConcurrentQueue α → Option (List α × ConcurrentQueue α)
  | 0, q => some ([], q)
  | n + 1, q =>
    match q.pull_out with
    | (Except.ok v, q1) =>
      match pull_out_n n q1 with
      | some (vs, q2) => some (v :: vs, q2)
      | none => none
    | (Except.error _, _) => none

/-- Call `Type pull_for(Duration)` `n` times with the same timeout; the values returned, in
order, and the final state, or `none` as soon as one call throws. -/
def pull_for_n {α : Type} (timeout : Nat) :
    Nat → ConcurrentQueue α → Option (List α × ConcurrentQueue α)
  | 0, q => some ([], q)
  | n + 1, q =>
    match q.pull_for timeout with
    | (Except.ok v, q1) =>
      match pull_for_n timeout n q1 with
      | some (vs, q2) => some (v :: vs, q2)
      | none => none
    | (Except.error _, _) => none

/-- The bound that every operation keeps: the buffer is no longer than `max_size`. -/
def WithinCapacity {α : Type} (q : ConcurrentQueue α) : Prop := q.queue.length ≤ q.max_size

end concurrent

namespace ThreadPoolExecutor

/-- What holds of every state reached from construction: registered thread ids are distinct
and were all handed out already; while the queue is open for input no worker stands in the
`QueueIsClosed` handler and at least `pool_size` workers are registered; the queue has the
capacity the executor was given. -/
def Consistent (e : ThreadPoolExecutor) : Prop :=
  (e.workers_map.map Prod.fst).Nodup ∧
  (∀ w ∈ e.workers_map, w.1 < e.thread_count) ∧
  (e.queue.is_shutdown_flag = false →
    ∀ w ∈ e.workers_map, w.2 ≠ WorkerPoint.caught_QueueIsClosed) ∧
  (e.queue.is_shutdown_flag = false → e.pool_size ≤ e.workers_map.length) ∧
  e.queue.max_size = e.max_queue_size

/-- Lines 47-54 of `submit`, for a caller whose test `!queue.empty()` of line 47 gave
`observed`, in the state `e` in which it then reaches the locked block of lines 48-53, or the
return when the test failed. -/
def submit_after_test (observed : Bool) (e : ThreadPoolExecutor) : ThreadPoolExecutor :=
  if observed then
    if e.workers_map.length < e.max_pool_size then start_worker e else e
  else e

/-- The member `submit(F func)` (lines 41-55) as one call among other threads. The call takes
up to three atomic steps: `queue.emplace(func)` (line 44), the test `!queue.empty()`
(line 47) and the locked block (lines 48-53). `others1` are the steps that other threads take
between the first and the second, the yield of line 46 being such a point, and `others2` the
steps they take between the second and the third, or before the return when the test failed.
The result is `none` when the other threads cannot take those steps. -/
def submit_among (e : ThreadPoolExecutor) (func : Func) (others1 others2 : List Action) :
    Option (Except concurrent.Exception Unit × ThreadPoolExecutor) :=
  match e.queue.emplace func with
  | (Except.error ex, _) => some (Except.error ex, e)
  | (Except.ok _, q) =>
    match run others1 { e with queue := q } with
    | none => none
    | some e2 =>
      match run others2 e2 with
      | none => none
      | some e3 => some (Except.ok (), submit_after_test (!e2.queue.empty) e3)

/-- The same state with `a` more callers of `submit` standing after line 44 and `b` more
standing before line 48. -/
def with_callers (a b : Nat) (e : ThreadPoolExecutor) : ThreadPoolExecutor :=
  { e with callers_after_emplace := e.callers_after_emplace + a,
           callers_before_lock := e.callers_before_lock + b }

end ThreadPoolExecutor

/-! Theorems. -/

namespace concurrent

variable {α : Type}

/-- The three non-blocking insertions have one body. -/
theorem push_move_eq_push (q : ConcurrentQueue α) (v : α) : q.push_move v = q.push v := rfl

theorem emplace_eq_push (q : ConcurrentQueue α) (v : α) : q.emplace v = q.push v := rfl

theorem push_for_move_eq_push_for (q : ConcurrentQueue α) (v : α) (t : Nat) :
    q.push_for_move v t = q.push_for v t := rfl

theorem emplace_for_eq_push_for (q : ConcurrentQueue α) (v : α) (t : Nat) :
    q.emplace_for t v = q.push_for v t := rfl

theorem pull_out_eq_pull (q : ConcurrentQueue α) : q.pull_out = q.pull := rfl

theorem push_keeps (q : ConcurrentQueue α) (v : α) (h : WithinCapacity q) :
    WithinCapacity (q.push v).2 ∧ (q.push v).2.max_size = q.max_size := by
  unfold WithinCapacity at *
  unfold ConcurrentQueue.push ConcurrentQueue.full
  by_cases hs : q.is_shutdown_flag = true
  · simp [hs, h]
  · by_cases hf : q.queue.length ≥ q.max_size
    · simp [hs, hf, h]
    · simp [hs, hf]
      omega

theorem push_for_keeps (q : ConcurrentQueue α) (v : α) (t : Nat) (h : WithinCapacity q) :
    WithinCapacity (q.push_for v t).2 ∧ (q.push_for v t).2.max_size = q.max_size := by
  unfold WithinCapacity at *
  unfold ConcurrentQueue.push_for ConcurrentQueue.full
  by_cases hs : q.is_shutdown_flag = true
  · simp [hs, h]
  · by_cases hf : q.queue.length ≥ q.max_size
    · simp [hs, hf, h]
    · simp [hs, hf]
      omega

theorem pull_keeps (q : ConcurrentQueue α) (h : WithinCapacity q) :
    WithinCapacity q.pull.2 ∧ q.pull.2.max_size = q.max_size := by
  unfold WithinCapacity at *
  unfold ConcurrentQueue.pull
  by_cases hs : q.is_shutdown_flag = true
  · simp [hs, h]
  · cases hq : q.queue with
    | nil => simp [hs, hq]
    | cons x rest =>
      rw [hq] at h
      simp at h
      simp [hs]
      omega

theorem pull_for_out_keeps (q : ConcurrentQueue α) (t : Nat) (h : WithinCapacity q) :
    WithinCapacity (q.pull_for_out t).2 ∧ (q.pull_for_out t).2.max_size = q.max_size := by
  unfold WithinCapacity at *
  unfold ConcurrentQueue.pull_for_out
  by_cases hs : q.is_shutdown_flag = true
  · simp [hs, h]
  · cases hq : q.queue with
    | nil => simp [hs, hq]
    | cons x rest =>
      rw [hq] at h
      simp at h
      simp [hs]
      omega

theorem pull_for_keeps (q : ConcurrentQueue α) (t : Nat) (h : WithinCapacity q) :
    WithinCapacity (q.pull_for t).2 ∧ (q.pull_for t).2.max_size = q.max_size := by
  unfold WithinCapacity at *
  unfold ConcurrentQueue.pull_for
  by_cases hs : q.is_terminated_flag = true
  · simp [hs, h]
  · cases hq : q.queue with
    | nil => simp [hs, hq]
    | cons x rest =>
      rw [hq] at h
      simp at h
      simp [hs]
      omega

theorem apply_keeps (op : QueueOp α) (q : ConcurrentQueue α) (h : WithinCapacity q) :
    WithinCapacity (op.apply q) ∧ (op.apply q).max_size = q.max_size := by
  cases op with
  | push_move v => exact push_keeps q v h
  | push v => exact push_keeps q v h
  | push_for_move v t => exact push_for_keeps q v t h
  | push_for v t => exact push_for_keeps q v t h
  | emplace v => exact push_keeps q v h
  | emplace_for t v => exact push_for_keeps q v t h
  | pull_out => exact pull_keeps q h
  | pull => exact pull_keeps q h
  | pull_for_out t => exact pull_for_out_keeps q t h
  | pull_for t => exact pull_for_keeps q t h
  | shutdown => exact ⟨h, rfl⟩
  | terminate => exact ⟨h, rfl⟩

theorem runOps_keeps (ops : List (QueueOp α)) (q : ConcurrentQueue α) (h : WithinCapacity q) :
    WithinCapacity (runOps ops q) ∧ (runOps ops q).max_size = q.max_size := by
  induction ops generalizing q with
  | nil => exact ⟨h, rfl⟩
  | cons op rest ih =>
    have h1 := apply_keeps op q h
    have h2 := ih (op.apply q) h1.1
    exact ⟨h2.1, h2.2.trans h1.2⟩

/-- C1. Capacity invariant: for every capacity `c >= 1`, a queue constructed with capacity `c`
exists, and after every prefix of every finite sequence of queue operations (push, emplace,
push_for, emplace_for, pull, pull_for in all their overloads, shutdown, terminate) applied to
it the queue length is at most `c`. -/
theorem C1_capacity_invariant (c : Nat) (hc : 1 ≤ c) (indeterminate : Bool)
    (ops : List (QueueOp α)) :
    ∃ q0 : ConcurrentQueue α, ConcurrentQueue.construct c indeterminate = Except.ok q0 ∧
      q0.size = 0 ∧ ∀ n : Nat, (runOps (ops.take n) q0).size ≤ c := by
  refine ⟨⟨[], false, indeterminate, c⟩, ?_, rfl, ?_⟩
  · have : c ≠ 0 := by omega
    simp [ConcurrentQueue.construct, this]
  · intro n
    have h := runOps_keeps (ops.take n) (⟨[], false, indeterminate, c⟩ : ConcurrentQueue α)
      (Nat.zero_le c)
    have h1 := h.1
    unfold WithinCapacity at h1
    rw [h.2] at h1
    exact h1

/-- C1 at capacity 2: three pushes, a timed push and a pull. -/
theorem C1_capacity_invariant_witness :
    1 ≤ 2 ∧ ∃ q0 : ConcurrentQueue Item, ConcurrentQueue.construct 2 false = Except.ok q0 ∧
      q0.size = 0 ∧
      ∀ n : Nat, (runOps ([QueueOp.push Item.A, QueueOp.push Item.B, QueueOp.push Item.C,
        QueueOp.push_for Item.D 50, QueueOp.pull].take n) q0).size ≤ 2 :=
  ⟨by decide, C1_capacity_invariant 2 (by decide) false _⟩

theorem push_all_open (xs : List α) (q : ConcurrentQueue α) (hs : q.is_shutdown_flag = false)
    (hlen : q.queue.length + xs.length ≤ q.max_size) :
    push_all xs q = some { q with queue := q.queue ++ xs } := by
  induction xs generalizing q with
  | nil => simp [push_all]
  | cons x rest ih =>
    simp only [List.length_cons] at hlen
    have hf : ¬ (q.queue.length ≥ q.max_size) := by omega
    have hp : q.push x = (Except.ok (), { q with queue := q.queue ++ [x] }) := by
      simp [ConcurrentQueue.push, ConcurrentQueue.full, hs, hf]
    simp only [push_all, hp]
    rw [ih { q with queue := q.queue ++ [x] } hs (by simp; omega)]
    simp

theorem pull_n_open (n : Nat) (q : ConcurrentQueue α) (hs : q.is_shutdown_flag = false)
    (hn : n ≤ q.queue.length) :
    pull_n n q = some (q.queue.take n, { q with queue := q.queue.drop n }) := by
  induction n generalizing q with
  | zero => simp [pull_n]
  | succ k ih =>
    obtain ⟨b, s, t, m⟩ := q
    cases b with
    | nil => simp at hn
    | cons x rest =>
      simp only at hs
      simp only [List.length_cons] at hn
      have hp : (⟨x :: rest, s, t, m⟩ : ConcurrentQueue α).pull =
          (Except.ok x, ⟨rest, s, t, m⟩) := by
        simp [ConcurrentQueue.pull, hs]
      simp only [pull_n, hp]
      rw [ih ⟨rest, s, t, m⟩ hs (by simp; omega)]
      simp

theorem pull_out_n_eq_pull_n (n : Nat) (q : ConcurrentQueue α) : pull_out_n n q = pull_n n q := by
  induction n generalizing q with
  | zero => rfl
  | succ k ih =>
    simp only [pull_out_n, pull_n, pull_out_eq_pull]
    cases h : q.pull with
    | mk r q1 =>
      cases r with
      | error ex => rfl
      | ok v => simp only [ih]

/-- C2. FIFO order: for every list `xs` no longer than the capacity `c >= 1`, pushing the items
of `xs` in order onto a newly constructed queue succeeds every time, and pulling `length xs`
times afterwards (with either overload of `pull`) succeeds every time, yields exactly `xs` in
the same order, and leaves the queue empty. -/
theorem C2_fifo_order (c : Nat) (hc : 1 ≤ c) (indeterminate : Bool) (xs : List α)
    (hlen : xs.length ≤ c) :
    ∃ q0 q1 q2 : ConcurrentQueue α,
      ConcurrentQueue.construct c indeterminate = Except.ok q0 ∧
      push_all xs q0 = some q1 ∧
      pull_n xs.length q1 = some (xs, q2) ∧
      pull_out_n xs.length q1 = some (xs, q2) ∧
      q2.queue = [] := by
  have hq1 : push_all xs (⟨[], false, indeterminate, c⟩ : ConcurrentQueue α) =
      some ⟨xs, false, indeterminate, c⟩ := by
    have h := push_all_open xs (⟨[], false, indeterminate, c⟩ : ConcurrentQueue α) rfl
      (by simpa using hlen)
    simpa using h
  have hq2 : pull_n xs.length (⟨xs, false, indeterminate, c⟩ : ConcurrentQueue α) =
      some (xs, ⟨[], false, indeterminate, c⟩) := by
    have h := pull_n_open xs.length (⟨xs, false, indeterminate, c⟩ : ConcurrentQueue α) rfl
      (Nat.le_refl _)
    simpa using h
  refine ⟨⟨[], false, indeterminate, c⟩, ⟨xs, false, indeterminate, c⟩,
    ⟨[], false, indeterminate, c⟩, ?_, hq1, hq2, ?_, rfl⟩
  · have : c ≠ 0 := by omega
    simp [ConcurrentQueue.construct, this]
  · rw [pull_out_n_eq_pull_n]
    exact hq2

/-- C2 at capacity 3 with the items A, B, C. -/
theorem C2_fifo_order_witness :
    1 ≤ 3 ∧ [Item.A, Item.B, Item.C].length ≤ 3 ∧
    ∃ q0 q1 q2 : ConcurrentQueue Item,
      ConcurrentQueue.construct 3 false = Except.ok q0 ∧
      push_all [Item.A, Item.B, Item.C] q0 = some q1 ∧
      pull_n [Item.A, Item.B, Item.C].length q1 = some ([Item.A, Item.B, Item.C], q2) ∧
      pull_out_n [Item.A, Item.B, Item.C].length q1 = some ([Item.A, Item.B, Item.C], q2) ∧
      q2.queue = [] :=
  ⟨by decide, by decide, C2_fifo_order 3 (by decide) false [Item.A, Item.B, Item.C] (by decide)⟩

theorem pull_for_n_not_terminated (t n : Nat) (q : ConcurrentQueue α)
    (ht : q.is_terminated_flag = false) (hn : n ≤ q.queue.length) :
    pull_for_n t n q = some (q.queue.take n, { q with queue := q.queue.drop n }) := by
  induction n generalizing q with
  | zero => simp [pull_for_n]
  | succ k ih =>
    obtain ⟨b, s, tf, m⟩ := q
    cases b with
    | nil => simp at hn
    | cons x rest =>
      simp only at ht
      simp only [List.length_cons] at hn
      have hp : (⟨x :: rest, s, tf, m⟩ : ConcurrentQueue α).pull_for t =
          (Except.ok x, ⟨rest, s, tf, m⟩) := by
        simp [ConcurrentQueue.pull_for, ht]
      simp only [pull_for_n, hp]
      rw [ih ⟨rest, s, tf, m⟩ ht (by simp; omega)]
      simp

/-- C3 as stated fails: on a queue of capacity 10 holding A, B, after `shutdown()` the call
`push(C)` throws `QueueIsClosed`, and so does `pull()`: it does not return A, and A, B stay
in the buffer. -/
theorem C3_pull_after_shutdown_is_closed :
    (ConcurrentQueue.construct 10 false : Except Exception (ConcurrentQueue Item)) =
      Except.ok ⟨[], false, false, 10⟩ ∧
    runOps [QueueOp.push Item.A, QueueOp.push Item.B, QueueOp.shutdown]
      (⟨[], false, false, 10⟩ : ConcurrentQueue Item) = ⟨[Item.A, Item.B], true, false, 10⟩ ∧
    (⟨[Item.A, Item.B], true, false, 10⟩ : ConcurrentQueue Item).push Item.C =
      (Except.error Exception.QueueIsClosed, ⟨[Item.A, Item.B], true, false, 10⟩) ∧
    (⟨[Item.A, Item.B], true, false, 10⟩ : ConcurrentQueue Item).pull =
      (Except.error Exception.QueueIsClosed, ⟨[Item.A, Item.B], true, false, 10⟩) ∧
    ¬ ((⟨[Item.A, Item.B], true, false, 10⟩ : ConcurrentQueue Item).pull.1 =
      Except.ok Item.A) := by
  decide

/-- C3, amended. Shutdown keeps the buffer but closes the non-blocking pull: in every queue
state that is not terminated, after `shutdown()` a push fails with Closed, both overloads of
the non-blocking `pull` fail with Closed as well and change nothing, the buffer is the one
held before `shutdown()`, and every buffered item is still retrievable, in order, through
`pull_for(timeout) -> T`. -/
theorem C3_shutdown_keeps_buffer (q : ConcurrentQueue α) (v : α) (t : Nat)
    (ht : q.is_terminated_flag = false) :
    q.shutdown.push v = (Except.error Exception.QueueIsClosed, q.shutdown) ∧
    q.shutdown.pull = (Except.error Exception.QueueIsClosed, q.shutdown) ∧
    q.shutdown.pull_out = (Except.error Exception.QueueIsClosed, q.shutdown) ∧
    q.shutdown.queue = q.queue ∧
    pull_for_n t q.queue.length q.shutdown = some (q.queue, { q.shutdown with queue := [] }) := by
  refine ⟨by simp [ConcurrentQueue.push, ConcurrentQueue.shutdown],
    by simp [ConcurrentQueue.pull, ConcurrentQueue.shutdown],
    by simp [ConcurrentQueue.pull_out, ConcurrentQueue.shutdown], rfl, ?_⟩
  have h := pull_for_n_not_terminated t q.queue.length q.shutdown ht (Nat.le_refl _)
  simpa [ConcurrentQueue.shutdown] using h

/-- C3, amended, on the queue of capacity 10 holding A, B. -/
theorem C3_shutdown_keeps_buffer_witness :
    (⟨[Item.A, Item.B], false, false, 10⟩ : ConcurrentQueue Item).is_terminated_flag = false ∧
    (⟨[Item.A, Item.B], true, false, 10⟩ : ConcurrentQueue Item).push Item.C =
      (Except.error Exception.QueueIsClosed, ⟨[Item.A, Item.B], true, false, 10⟩) ∧
    (⟨[Item.A, Item.B], true, false, 10⟩ : ConcurrentQueue Item).pull =
      (Except.error Exception.QueueIsClosed, ⟨[Item.A, Item.B], true, false, 10⟩) ∧
    (⟨[Item.A, Item.B], true, false, 10⟩ : ConcurrentQueue Item).pull_out =
      (Except.error Exception.QueueIsClosed, ⟨[Item.A, Item.B], true, false, 10⟩) ∧
    (⟨[Item.A, Item.B], true, false, 10⟩ : ConcurrentQueue Item).queue = [Item.A, Item.B] ∧
    pull_for_n 50 2 (⟨[Item.A, Item.B], true, false, 10⟩ : ConcurrentQueue Item) =
      some ([Item.A, Item.B], ⟨[], true, false, 10⟩) :=
  ⟨rfl, C3_shutdown_keeps_buffer (⟨[Item.A, Item.B], false, false, 10⟩ : ConcurrentQueue Item)
    Item.C 50 rfl⟩

/-- C5 fails on `pull_for(out, timeout)`. The overload `pull_for(timeout) -> T` behaves as
claimed in every state: Closed if the queue is closed-for-all, else Timeout if it is empty,
else the front item is removed and returned. On the queue holding A that was `shutdown()` but
not `terminate()`d, it returns A, whereas `pull_for(out, timeout)` throws `QueueIsClosed` and
leaves A in the buffer. -/
theorem C5_pull_for_out_closed_after_shutdown :
    (∀ (q : ConcurrentQueue Item) (t : Nat),
      (q.is_terminated_flag = true →
        q.pull_for t = (Except.error Exception.QueueIsClosed, q)) ∧
      (q.is_terminated_flag = false → q.queue = [] →
        q.pull_for t = (Except.error Exception.TimeoutError, q)) ∧
      (∀ (x : Item) (rest : List Item), q.is_terminated_flag = false → q.queue = x :: rest →
        q.pull_for t = (Except.ok x, { q with queue := rest }))) ∧
    runOps [QueueOp.push Item.A, QueueOp.shutdown]
      (⟨[], false, false, 10⟩ : ConcurrentQueue Item) = ⟨[Item.A], true, false, 10⟩ ∧
    (⟨[Item.A], true, false, 10⟩ : ConcurrentQueue Item).pull_for 50 =
      (Except.ok Item.A, ⟨[], true, false, 10⟩) ∧
    (⟨[Item.A], true, false, 10⟩ : ConcurrentQueue Item).pull_for_out 50 =
      (Except.error Exception.QueueIsClosed, ⟨[Item.A], true, false, 10⟩) := by
  refine ⟨?_, by decide, by decide, by decide⟩
  intro q t
  obtain ⟨b, s, tf, m⟩ := q
  refine ⟨?_, ?_, ?_⟩
  · intro h
    simp only at h
    simp [ConcurrentQueue.pull_for, h]
  · intro h hb
    simp only at h hb
    simp [ConcurrentQueue.pull_for, h, hb]
  · intro x rest h hb
    simp only at h hb
    simp [ConcurrentQueue.pull_for, h, hb]

/-- C6. Terminate is absolute: in every queue state, empty or not, after `terminate()` every
overload of push, push_for, emplace, emplace_for, pull and pull_for fails with Closed and
returns the terminated state unchanged, so the buffer is exactly the one held at the moment
of `terminate()`. -/
theorem C6_terminate_is_absolute (q : ConcurrentQueue α) (v : α) (t : Nat) :
    q.terminate.queue = q.queue ∧
    q.terminate.push_move v = (Except.error Exception.QueueIsClosed, q.terminate) ∧
    q.terminate.push v = (Except.error Exception.QueueIsClosed, q.terminate) ∧
    q.terminate.push_for_move v t = (Except.error Exception.QueueIsClosed, q.terminate) ∧
    q.terminate.push_for v t = (Except.error Exception.QueueIsClosed, q.terminate) ∧
    q.terminate.emplace v = (Except.error Exception.QueueIsClosed, q.terminate) ∧
    q.terminate.emplace_for t v = (Except.error Exception.QueueIsClosed, q.terminate) ∧
    q.terminate.pull_out = (Except.error Exception.QueueIsClosed, q.terminate) ∧
    q.terminate.pull = (Except.error Exception.QueueIsClosed, q.terminate) ∧
    q.terminate.pull_for_out t = (Except.error Exception.QueueIsClosed, q.terminate) ∧
    q.terminate.pull_for t = (Except.error Exception.QueueIsClosed, q.terminate) := by
  refine ⟨rfl, ?_, ?_, ?_, ?_, ?_, ?_, ?_, ?_, ?_, ?_⟩ <;>
    simp [ConcurrentQueue.terminate, ConcurrentQueue.push_move, ConcurrentQueue.push,
      ConcurrentQueue.push_for_move, ConcurrentQueue.push_for, ConcurrentQueue.emplace,
      ConcurrentQueue.emplace_for, ConcurrentQueue.pull_out, ConcurrentQueue.pull,
      ConcurrentQueue.pull_for_out, ConcurrentQueue.pull_for]

/-- C7. Non-blocking push/emplace outcome, for every queue state and value and for each of
`push(Type&&)`, `push(const Type&)` and `emplace`: the call fails with Closed if the queue is
closed-for-input, whether or not it is full; otherwise it fails with Full if
length >= capacity; otherwise it succeeds and the new buffer is the old one with the value
appended at the back. On either failure the state returned is the state given. -/
theorem C7_push_outcome (q : ConcurrentQueue α) (v : α) :
    (q.is_shutdown_flag = true →
      q.push_move v = (Except.error Exception.QueueIsClosed, q) ∧
      q.push v = (Except.error Exception.QueueIsClosed, q) ∧
      q.emplace v = (Except.error Exception.QueueIsClosed, q)) ∧
    (q.is_shutdown_flag = false → q.queue.length ≥ q.max_size →
      q.push_move v = (Except.error Exception.QueueIsFull, q) ∧
      q.push v = (Except.error Exception.QueueIsFull, q) ∧
      q.emplace v = (Except.error Exception.QueueIsFull, q)) ∧
    (q.is_shutdown_flag = false → q.queue.length < q.max_size →
      q.push_move v = (Except.ok (), { q with queue := q.queue ++ [v] }) ∧
      q.push v = (Except.ok (), { q with queue := q.queue ++ [v] }) ∧
      q.emplace v = (Except.ok (), { q with queue := q.queue ++ [v] })) := by
  refine ⟨?_, ?_, ?_⟩
  · intro hs
    simp [ConcurrentQueue.push_move, ConcurrentQueue.push, ConcurrentQueue.emplace, hs]
  · intro hs hf
    simp [ConcurrentQueue.push_move, ConcurrentQueue.push, ConcurrentQueue.emplace,
      ConcurrentQueue.full, hs, hf]
  · intro hs hf
    have hnf : ¬ (q.max_size ≤ q.queue.length) := by omega
    simp [ConcurrentQueue.push_move, ConcurrentQueue.push, ConcurrentQueue.emplace,
      ConcurrentQueue.full, hs, hnf]

/-- C7 on three queues of capacity 2: closed and full, open and full, open with room. -/
theorem C7_push_outcome_witness :
    ((⟨[Item.A, Item.B], true, false, 2⟩ : ConcurrentQueue Item).push_move Item.C =
        (Except.error Exception.QueueIsClosed, ⟨[Item.A, Item.B], true, false, 2⟩) ∧
      (⟨[Item.A, Item.B], true, false, 2⟩ : ConcurrentQueue Item).push Item.C =
        (Except.error Exception.QueueIsClosed, ⟨[Item.A, Item.B], true, false, 2⟩) ∧
      (⟨[Item.A, Item.B], true, false, 2⟩ : ConcurrentQueue Item).emplace Item.C =
        (Except.error Exception.QueueIsClosed, ⟨[Item.A, Item.B], true, false, 2⟩)) ∧
    ((⟨[Item.A, Item.B], false, false, 2⟩ : ConcurrentQueue Item).push_move Item.C =
        (Except.error Exception.QueueIsFull, ⟨[Item.A, Item.B], false, false, 2⟩) ∧
      (⟨[Item.A, Item.B], false, false, 2⟩ : ConcurrentQueue Item).push Item.C =
        (Except.error Exception.QueueIsFull, ⟨[Item.A, Item.B], false, false, 2⟩) ∧
      (⟨[Item.A, Item.B], false, false, 2⟩ : ConcurrentQueue Item).emplace Item.C =
        (Except.error Exception.QueueIsFull, ⟨[Item.A, Item.B], false, false, 2⟩)) ∧
    ((⟨[Item.A], false, false, 2⟩ : ConcurrentQueue Item).push_move Item.C =
        (Except.ok (), ⟨[Item.A, Item.C], false, false, 2⟩) ∧
      (⟨[Item.A], false, false, 2⟩ : ConcurrentQueue Item).push Item.C =
        (Except.ok (), ⟨[Item.A, Item.C], false, false, 2⟩) ∧
      (⟨[Item.A], false, false, 2⟩ : ConcurrentQueue Item).emplace Item.C =
        (Except.ok (), ⟨[Item.A, Item.C], false, false, 2⟩)) :=
  ⟨(C7_push_outcome (⟨[Item.A, Item.B], true, false, 2⟩ : ConcurrentQueue Item) Item.C).1 rfl,
   (C7_push_outcome (⟨[Item.A, Item.B], false, false, 2⟩ : ConcurrentQueue Item) Item.C).2.1
     rfl (by decide),
   (C7_push_outcome (⟨[Item.A], false, false, 2⟩ : ConcurrentQueue Item) Item.C).2.2
     rfl (by decide)⟩

/-- C8. Non-blocking pull outcome, for every queue state and for both `pull(Type&)` and
`Type pull()`: the call fails with Closed if the queue is closed-for-input, even when the
buffer is non-empty; otherwise it fails with Empty if the buffer is empty; otherwise it
succeeds, returns the front item and leaves the buffer without its first element. On either
failure the state returned is the state given. -/
theorem C8_pull_outcome (q : ConcurrentQueue α) :
    (q.is_shutdown_flag = true →
      q.pull_out = (Except.error Exception.QueueIsClosed, q) ∧
      q.pull = (Except.error Exception.QueueIsClosed, q)) ∧
    (q.is_shutdown_flag = false → q.queue = [] →
      q.pull_out = (Except.error Exception.QueueIsEmpty, q) ∧
      q.pull = (Except.error Exception.QueueIsEmpty, q)) ∧
    (∀ (x : α) (rest : List α), q.is_shutdown_flag = false → q.queue = x :: rest →
      q.pull_out = (Except.ok x, { q with queue := rest }) ∧
      q.pull = (Except.ok x, { q with queue := rest })) := by
  obtain ⟨b, s, tf, m⟩ := q
  refine ⟨?_, ?_, ?_⟩
  · intro hs
    simp only at hs
    simp [ConcurrentQueue.pull_out, ConcurrentQueue.pull, hs]
  · intro hs hb
    simp only at hs hb
    simp [ConcurrentQueue.pull_out, ConcurrentQueue.pull, hs, hb]
  · intro x rest hs hb
    simp only at hs hb
    simp [ConcurrentQueue.pull_out, ConcurrentQueue.pull, hs, hb]

/-- C8 on three queues: closed and non-empty, open and empty, open and non-empty. -/
theorem C8_pull_outcome_witness :
    ((⟨[Item.A, Item.B], true, false, 2⟩ : ConcurrentQueue Item).pull_out =
        (Except.error Exception.QueueIsClosed, ⟨[Item.A, Item.B], true, false, 2⟩) ∧
      (⟨[Item.A, Item.B], true, false, 2⟩ : ConcurrentQueue Item).pull =
        (Except.error Exception.QueueIsClosed, ⟨[Item.A, Item.B], true, false, 2⟩)) ∧
    ((⟨[], false, false, 2⟩ : ConcurrentQueue Item).pull_out =
        (Except.error Exception.QueueIsEmpty, ⟨[], false, false, 2⟩) ∧
      (⟨[], false, false, 2⟩ : ConcurrentQueue Item).pull =
        (Except.error Exception.QueueIsEmpty, ⟨[], false, false, 2⟩)) ∧
    ((⟨[Item.A, Item.B], false, false, 2⟩ : ConcurrentQueue Item).pull_out =
        (Except.ok Item.A, ⟨[Item.B], false, false, 2⟩) ∧
      (⟨[Item.A, Item.B], false, false, 2⟩ : ConcurrentQueue Item).pull =
        (Except.ok Item.A, ⟨[Item.B], false, false, 2⟩)) :=
  ⟨(C8_pull_outcome (⟨[Item.A, Item.B], true, false, 2⟩ : ConcurrentQueue Item)).1 rfl,
   (C8_pull_outcome (⟨[], false, false, 2⟩ : ConcurrentQueue Item)).2.1 rfl rfl,
   (C8_pull_outcome (⟨[Item.A, Item.B], false, false, 2⟩ : ConcurrentQueue Item)).2.2
     Item.A [Item.B] rfl rfl⟩

end concurrent

namespace ThreadPoolExecutor

open concurrent

theorem start_worker_registry (e : ThreadPoolExecutor) :
    (start_worker e).workers_map.length = e.workers_map.length + 1 ∧
    (start_worker e).max_pool_size = e.max_pool_size ∧
    (start_worker e).pool_size = e.pool_size := by
  simp [start_worker]

theorem start_workers_registry (n : Nat) (e : ThreadPoolExecutor) :
    (start_workers n e).workers_map.length = e.workers_map.length + n ∧
    (start_workers n e).max_pool_size = e.max_pool_size ∧
    (start_workers n e).pool_size = e.pool_size := by
  induction n generalizing e with
  | zero => simp [start_workers]
  | succ k ih =>
    have h1 := start_worker_registry e
    have h2 := ih (start_worker e)
    simp only [start_workers]
    refine ⟨?_, ?_, ?_⟩
    · rw [h2.1, h1.1]
      omega
    · rw [h2.2.1, h1.2.1]
    · rw [h2.2.2, h1.2.2]

theorem goto_registry (e : ThreadPoolExecutor) (id : Nat) (p : WorkerPoint) :
    (goto e id p).workers_map.length = e.workers_map.length ∧
    (goto e id p).max_pool_size = e.max_pool_size ∧
    (goto e id p).pool_size = e.pool_size := by
  simp [goto]

theorem on_worker_exit_registry (e : ThreadPoolExecutor) (id : Nat) :
    (on_worker_exit e id).workers_map.length ≤ e.workers_map.length ∧
    (on_worker_exit e id).max_pool_size = e.max_pool_size ∧
    (on_worker_exit e id).pool_size = e.pool_size := by
  refine ⟨?_, rfl, rfl⟩
  simp only [on_worker_exit]
  exact List.length_filter_le _ _

/-- A step of a worker thread never lengthens the registry and never changes the bounds. -/
theorem poll_queue_registry (e e1 : ThreadPoolExecutor) (id : Nat)
    (h : poll_queue e id = some e1) :
    e1.workers_map.length ≤ e.workers_map.length ∧ e1.max_pool_size = e.max_pool_size ∧
    e1.pool_size = e.pool_size := by
  unfold poll_queue at h
  split at h
  · exact absurd h (by simp)
  · split at h
    · have h1 := Option.some.inj h
      subst h1
      simp [goto]
    · have h1 := Option.some.inj h
      subst h1
      simp [goto]
    · have h1 := Option.some.inj h
      subst h1
      simp [goto]
    · exact absurd h (by simp)
  · have h1 := Option.some.inj h
    subst h1
    simp [goto]
  · split at h
    · have h1 := Option.some.inj h
      subst h1
      exact on_worker_exit_registry e id
    · have h1 := Option.some.inj h
      subst h1
      simp [goto]
  · have h1 := Option.some.inj h
    subst h1
    exact on_worker_exit_registry e id

/-- Every atomic step keeps the registry within `max_pool_size` and keeps the bound. -/
theorem step_ceiling (e e1 : ThreadPoolExecutor) (a : Action) (h : step e a = some e1)
    (hle : e.workers_map.length ≤ e.max_pool_size) :
    e1.workers_map.length ≤ e1.max_pool_size ∧ e1.max_pool_size = e.max_pool_size := by
  cases a with
  | submit_emplace func =>
    simp only [step, Option.some.injEq] at h
    subst h
    unfold submit_emplace
    split <;> exact ⟨hle, rfl⟩
  | submit_empty_test =>
    simp only [step, submit_empty_test] at h
    split at h
    · exact absurd h (by simp)
    · split at h <;>
      · have h1 := Option.some.inj h
        subst h1
        exact ⟨hle, rfl⟩
  | submit_locked =>
    simp only [step, submit_locked] at h
    split at h
    · exact absurd h (by simp)
    · split at h
      · rename_i hlt
        have h1 := Option.some.inj h
        subst h1
        refine ⟨?_, rfl⟩
        simp only [start_worker, List.length_append, List.length_singleton]
        exact hlt
      · have h1 := Option.some.inj h
        subst h1
        exact ⟨hle, rfl⟩
  | shutdown =>
    simp only [step, Option.some.injEq] at h
    subst h
    exact ⟨hle, rfl⟩
  | poll_queue id =>
    simp only [step] at h
    have h1 := poll_queue_registry e e1 id h
    refine ⟨?_, h1.2.1⟩
    rw [h1.2.1]
    exact Nat.le_trans h1.1 hle

theorem run_ceiling (actions : List Action) (e e1 : ThreadPoolExecutor)
    (h : run actions e = some e1) (hle : e.workers_map.length ≤ e.max_pool_size) :
    e1.workers_map.length ≤ e1.max_pool_size ∧ e1.max_pool_size = e.max_pool_size := by
  induction actions generalizing e with
  | nil =>
    simp only [run, Option.some.injEq] at h
    subst h
    exact ⟨hle, rfl⟩
  | cons a rest ih =>
    simp only [run] at h
    cases hs : step e a with
    | none => simp [hs] at h
    | some e2 =>
      simp only [hs] at h
      have h2 := step_ceiling e e2 a hs hle
      have h3 := ih e2 h h2.1
      exact ⟨h3.1, h3.2.trans h2.2⟩

/-- C9. Registry ceiling: for every configuration with 1 <= pool_size <= max_pool_size, the
effective max_pool_size being pool_size when the argument is 0 (omitted), every state reached
from construction by any sequence of atomic steps of submit calls, worker threads (pulls, task
runs, timeouts, exits) and shutdown has a registry size between 0 and that max_pool_size. -/
theorem C9_registry_ceiling (pool_size max_pool_size keep_alive_time max_queue_size : Nat)
    (indeterminate : Bool) (actions : List Action) (e : ThreadPoolExecutor)
    (_h1 : 1 ≤ pool_size)
    (h2 : pool_size ≤ (if max_pool_size = 0 then pool_size else max_pool_size))
    (hr : runFromConstruction pool_size max_pool_size keep_alive_time max_queue_size
      indeterminate actions = some e) :
    e.max_pool_size = (if max_pool_size = 0 then pool_size else max_pool_size) ∧
    0 ≤ e.workers_map.length ∧ e.workers_map.length ≤ e.max_pool_size := by
  unfold runFromConstruction construct at hr
  cases hq : (ConcurrentQueue.construct max_queue_size indeterminate :
      Except Exception (ConcurrentQueue Func)) with
  | error ex => simp [hq] at hr
  | ok q =>
    simp only [hq] at hr
    have hs := start_workers_registry pool_size
      { pool_size := pool_size,
        max_pool_size := if max_pool_size != 0 then max_pool_size else pool_size,
        max_queue_size := max_queue_size,
        keep_alive_time := keep_alive_time,
        workers_map := [],
        queue := q,
        thread_count := 0,
        executed := [],
        callers_after_emplace := 0,
        callers_before_lock := 0 }
    have hmax : (if max_pool_size != 0 then max_pool_size else pool_size) =
        (if max_pool_size = 0 then pool_size else max_pool_size) := by
      by_cases hz : max_pool_size = 0 <;> simp [hz]
    have h0 := run_ceiling actions _ e hr (by
      rw [hs.1, hs.2.1]
      simp only [List.length_nil, Nat.zero_add]
      rw [hmax]
      exact h2)
    refine ⟨?_, Nat.zero_le _, h0.1⟩
    rw [h0.2, hs.2.1]
    exact hmax

/-- C9 with pool_size 2 and max_pool_size 4: three submits grow the registry to 4, one
worker idles out, the executor is shut down and one worker leaves on the closed queue. -/
theorem C9_registry_ceiling_witness :
    1 ≤ 2 ∧ 2 ≤ (if 4 = 0 then 2 else 4) ∧
    runFromConstruction 2 4 100 8 false
      [Action.submit_emplace 1, Action.submit_emplace 2, Action.submit_emplace 3,
       Action.submit_empty_test, Action.submit_locked, Action.submit_empty_test,
       Action.submit_locked, Action.submit_empty_test, Action.submit_locked,
       Action.poll_queue 0, Action.poll_queue 1, Action.poll_queue 2, Action.poll_queue 3,
       Action.poll_queue 3, Action.poll_queue 0, Action.shutdown, Action.poll_queue 1,
       Action.poll_queue 1, Action.poll_queue 1] =
      some { pool_size := 2, max_pool_size := 4, max_queue_size := 8, keep_alive_time := 100,
             workers_map := [(0, WorkerPoint.at_pull_for), (2, WorkerPoint.at_func 3)],
             queue := ⟨[], true, false, 8⟩, thread_count := 4, executed := [1, 2],
             callers_after_emplace := 0, callers_before_lock := 0 } ∧
    (4 = (if 4 = 0 then 2 else 4) ∧ 0 ≤ 2 ∧ 2 ≤ 4) :=
  ⟨by decide, by decide, by decide,
   C9_registry_ceiling 2 4 100 8 false
     [Action.submit_emplace 1, Action.submit_emplace 2, Action.submit_emplace 3,
       Action.submit_empty_test, Action.submit_locked, Action.submit_empty_test,
       Action.submit_locked, Action.submit_empty_test, Action.submit_locked,
       Action.poll_queue 0, Action.poll_queue 1, Action.poll_queue 2, Action.poll_queue 3,
       Action.poll_queue 3, Action.poll_queue 0, Action.shutdown, Action.poll_queue 1,
       Action.poll_queue 1, Action.poll_queue 1]
     { pool_size := 2, max_pool_size := 4, max_queue_size := 8, keep_alive_time := 100,
       workers_map := [(0, WorkerPoint.at_pull_for), (2, WorkerPoint.at_func 3)],
       queue := ⟨[], true, false, 8⟩, thread_count := 4, executed := [1, 2],
       callers_after_emplace := 0, callers_before_lock := 0 }
     (by decide) (by decide) (by decide)⟩

theorem lookup_after_erase (l : List (Nat × WorkerPoint)) (id : Nat) :
    (l.filter (fun w => w.1 != id)).lookup id = none := by
  induction l with
  | nil => rfl
  | cons w rest ih =>
    obtain ⟨k, p⟩ := w
    by_cases hk : k = id
    · subst hk
      simpa [List.filter] using ih
    · have hne : (k != id) = true := by simpa using hk
      have hne2 : (id == k) = false := by
        simp only [beq_eq_false_iff_ne, ne_eq]
        exact fun h => hk h.symm
      simp only [List.filter, hne, List.lookup, hne2]
      exact ih

theorem lookup_after_goto (l : List (Nat × WorkerPoint)) (id : Nat) (p p0 : WorkerPoint)
    (h : l.lookup id = some p0) :
    (l.map (fun w => if w.1 == id then (id, p) else w)).lookup id = some p := by
  induction l with
  | nil => simp [List.lookup] at h
  | cons w rest ih =>
    obtain ⟨k, pk⟩ := w
    by_cases hk : k = id
    · subst hk
      simp only [List.map_cons, beq_self_eq_true, if_true, List.lookup_cons]
    · have hne2 : (id == k) = false := by
        simp only [beq_eq_false_iff_ne, ne_eq]
        exact fun h => hk h.symm
      have hne : (k == id) = false := by
        simp only [beq_eq_false_iff_ne, ne_eq]
        exact hk
      simp only [List.lookup_cons, hne2] at h
      simp only [List.map_cons, hne, Bool.false_eq_true, if_false, List.lookup_cons, hne2]
      exact ih h

/-- C4 fails on the code. General part: after the executor's `shutdown()`, a worker standing
in `pull_for(func, keep_alive_time)` leaves it with `QueueIsClosed`, whatever the queue holds,
and the queue is left as it is. Concrete run, pool_size 1 and max_queue_size 2: task 7 is
submitted and pulled by worker 0, task 8 is submitted and stays queued, the executor is shut
down, worker 0 finishes task 7, polls, catches `QueueIsClosed` and exits. The registry is
empty, so `wait()` returns, and task 8 was never run: it is still in the queue. -/
theorem C4_shutdown_drops_queued_tasks :
    (∀ (e : ThreadPoolExecutor) (id : Nat),
      e.workers_map.lookup id = some WorkerPoint.at_pull_for →
      poll_queue (shutdown e) id =
        some (goto (shutdown e) id WorkerPoint.caught_QueueIsClosed)) ∧
    runFromConstruction 1 0 0 2 false
      [Action.submit_emplace 7, Action.submit_empty_test, Action.submit_locked,
       Action.poll_queue 0, Action.submit_emplace 8, Action.submit_empty_test,
       Action.submit_locked, Action.shutdown, Action.poll_queue 0, Action.poll_queue 0,
       Action.poll_queue 0] =
      some { pool_size := 1, max_pool_size := 1, max_queue_size := 2, keep_alive_time := 0,
             workers_map := [], queue := ⟨[8], true, false, 2⟩, thread_count := 1,
             executed := [7], callers_after_emplace := 0, callers_before_lock := 0 } ∧
    wait_returns
      { pool_size := 1, max_pool_size := 1, max_queue_size := 2, keep_alive_time := 0,
        workers_map := [], queue := ⟨[8], true, false, 2⟩, thread_count := 1,
        executed := [7], callers_after_emplace := 0, callers_before_lock := 0 } = true := by
  refine ⟨?_, by decide, by decide⟩
  intro e id h
  have hw : (shutdown e).workers_map = e.workers_map := rfl
  unfold poll_queue
  rw [hw, h]
  simp [shutdown, ConcurrentQueue.close, ConcurrentQueue.shutdown, ConcurrentQueue.pull_for_out]

/-- C10 as stated fails. With pool_size 1 and max_pool_size 2, a submit grows the registry to
two workers, worker 1 (started by submit) pulls the task, and worker 0 (started by the
constructor) times out on the empty queue: the registry holds 2 > 1 workers, so worker 0
exits and is erased from the registry. -/
theorem C10_constructor_worker_idles_out :
    ¬ (∀ (pool_size max_pool_size keep_alive_time max_queue_size : Nat) (indeterminate : Bool)
        (actions : List Action) (e e1 : ThreadPoolExecutor) (id : Nat),
        1 ≤ pool_size →
        pool_size ≤ (if max_pool_size = 0 then pool_size else max_pool_size) →
        runFromConstruction pool_size max_pool_size keep_alive_time max_queue_size
          indeterminate actions = some e →
        id < pool_size →
        e.workers_map.lookup id = some WorkerPoint.caught_TimeoutError →
        poll_queue e id = some e1 →
        (e1.workers_map.lookup id).isSome = true) := by
  intro h
  have h1 := h 1 2 0 2 false
    [Action.submit_emplace 7, Action.submit_empty_test, Action.submit_locked,
     Action.poll_queue 1, Action.poll_queue 0]
    { pool_size := 1, max_pool_size := 2, max_queue_size := 2, keep_alive_time := 0,
      workers_map := [(0, WorkerPoint.caught_TimeoutError), (1, WorkerPoint.at_func 7)],
      queue := ⟨[], false, false, 2⟩, thread_count := 2, executed := [],
      callers_after_emplace := 0, callers_before_lock := 0 }
    { pool_size := 1, max_pool_size := 2, max_queue_size := 2, keep_alive_time := 0,
      workers_map := [(1, WorkerPoint.at_func 7)],
      queue := ⟨[], false, false, 2⟩, thread_count := 2, executed := [],
      callers_after_emplace := 0, callers_before_lock := 0 }
    0 (by decide) (by decide) (by decide) (by decide) (by decide) (by decide)
  exact absurd h1 (by decide)

/-- C10, amended. Idle exit goes by registry size, not by which worker it is: a worker that
caught the Timeout of `pull_for`, whether started by the constructor or by submit, exits
(its entry is erased) when the registry holds more than pool_size workers at that moment,
and goes back to `pull_for`, the registry keeping its size, when the registry holds at most
pool_size workers. -/
theorem C10_idle_exit_by_registry_size (e : ThreadPoolExecutor) (id : Nat)
    (h : e.workers_map.lookup id = some WorkerPoint.caught_TimeoutError) :
    (e.workers_map.length > e.pool_size →
      poll_queue e id = some (on_worker_exit e id) ∧
      (on_worker_exit e id).workers_map.lookup id = none) ∧
    (e.workers_map.length ≤ e.pool_size →
      poll_queue e id = some (goto e id WorkerPoint.at_pull_for) ∧
      (goto e id WorkerPoint.at_pull_for).workers_map.lookup id = some WorkerPoint.at_pull_for ∧
      (goto e id WorkerPoint.at_pull_for).workers_map.length = e.workers_map.length) := by
  refine ⟨?_, ?_⟩
  · intro hgt
    refine ⟨?_, lookup_after_erase e.workers_map id⟩
    unfold poll_queue
    rw [h]
    simp [hgt]
  · intro hle
    refine ⟨?_, lookup_after_goto e.workers_map id _ _ h, (goto_registry e id _).1⟩
    unfold poll_queue
    rw [h]
    have hn : ¬ (e.workers_map.length > e.pool_size) := by omega
    simp [hn]

/-- C10, amended, at two states with pool_size 1: worker 0, started by the constructor, has
caught the Timeout; with two workers registered it exits, with one it polls again. -/
theorem C10_idle_exit_by_registry_size_witness :
    poll_queue
      { pool_size := 1, max_pool_size := 2, max_queue_size := 2, keep_alive_time := 0,
        workers_map := [(0, WorkerPoint.caught_TimeoutError), (1, WorkerPoint.at_func 7)],
        queue := ⟨[], false, false, 2⟩, thread_count := 2, executed := [],
        callers_after_emplace := 0, callers_before_lock := 0 } 0 =
      some
      { pool_size := 1, max_pool_size := 2, max_queue_size := 2, keep_alive_time := 0,
        workers_map := [(1, WorkerPoint.at_func 7)],
        queue := ⟨[], false, false, 2⟩, thread_count := 2, executed := [],
        callers_after_emplace := 0, callers_before_lock := 0 } ∧
    poll_queue
      { pool_size := 1, max_pool_size := 2, max_queue_size := 2, keep_alive_time := 0,
        workers_map := [(0, WorkerPoint.caught_TimeoutError)],
        queue := ⟨[], false, false, 2⟩, thread_count := 1, executed := [],
        callers_after_emplace := 0, callers_before_lock := 0 } 0 =
      some
      { pool_size := 1, max_pool_size := 2, max_queue_size := 2, keep_alive_time := 0,
        workers_map := [(0, WorkerPoint.at_pull_for)],
        queue := ⟨[], false, false, 2⟩, thread_count := 1, executed := [],
        callers_after_emplace := 0, callers_before_lock := 0 } :=
  ⟨((C10_idle_exit_by_registry_size
      { pool_size := 1, max_pool_size := 2, max_queue_size := 2, keep_alive_time := 0,
        workers_map := [(0, WorkerPoint.caught_TimeoutError), (1, WorkerPoint.at_func 7)],
        queue := ⟨[], false, false, 2⟩, thread_count := 2, executed := [],
        callers_after_emplace := 0, callers_before_lock := 0 } 0 (by decide)).1
      (by decide)).1,
   ((C10_idle_exit_by_registry_size
      { pool_size := 1, max_pool_size := 2, max_queue_size := 2, keep_alive_time := 0,
        workers_map := [(0, WorkerPoint.caught_TimeoutError)],
        queue := ⟨[], false, false, 2⟩, thread_count := 1, executed := [],
        callers_after_emplace := 0, callers_before_lock := 0 } 0 (by decide)).2
      (by decide)).1⟩

end ThreadPoolExecutor

namespace concurrent

variable {α : Type}

/-- C12. Timed push outcome at the moment the wait ends, for every queue state and value and
for each of `push_for(Type&&, Duration)`, `push_for(const Type&, Duration)` and `emplace_for`:
the call fails with Closed if the queue is closed-for-input, whether or not it is full;
otherwise it fails with Timeout if length >= capacity; otherwise it appends the value at the
back. On either failure the state returned is the state given. -/
theorem C12_push_for_outcome (q : ConcurrentQueue α) (v : α) (t : Nat) :
    (q.is_shutdown_flag = true →
      q.push_for_move v t = (Except.error Exception.QueueIsClosed, q) ∧
      q.push_for v t = (Except.error Exception.QueueIsClosed, q) ∧
      q.emplace_for t v = (Except.error Exception.QueueIsClosed, q)) ∧
    (q.is_shutdown_flag = false → q.queue.length ≥ q.max_size →
      q.push_for_move v t = (Except.error Exception.TimeoutError, q) ∧
      q.push_for v t = (Except.error Exception.TimeoutError, q) ∧
      q.emplace_for t v = (Except.error Exception.TimeoutError, q)) ∧
    (q.is_shutdown_flag = false → q.queue.length < q.max_size →
      q.push_for_move v t = (Except.ok (), { q with queue := q.queue ++ [v] }) ∧
      q.push_for v t = (Except.ok (), { q with queue := q.queue ++ [v] }) ∧
      q.emplace_for t v = (Except.ok (), { q with queue := q.queue ++ [v] })) := by
  refine ⟨?_, ?_, ?_⟩
  · intro hs
    simp [ConcurrentQueue.push_for_move, ConcurrentQueue.push_for, ConcurrentQueue.emplace_for,
      hs]
  · intro hs hf
    simp [ConcurrentQueue.push_for_move, ConcurrentQueue.push_for, ConcurrentQueue.emplace_for,
      ConcurrentQueue.full, hs, hf]
  · intro hs hf
    have hnf : ¬ (q.max_size ≤ q.queue.length) := by omega
    simp [ConcurrentQueue.push_for_move, ConcurrentQueue.push_for, ConcurrentQueue.emplace_for,
      ConcurrentQueue.full, hs, hnf]

/-- C12 on the worked example: on a new queue of capacity 2, push A and push B succeed and
push C fails with Full, which leaves the open queue holding A, B; there `push_for(D, 50)` in
each overload fails with Timeout and the buffer is still A, B. -/
theorem C12_push_for_outcome_witness :
    (ConcurrentQueue.construct 2 false : Except Exception (ConcurrentQueue Item)) =
      Except.ok ⟨[], false, false, 2⟩ ∧
    (⟨[], false, false, 2⟩ : ConcurrentQueue Item).push Item.A =
      (Except.ok (), ⟨[Item.A], false, false, 2⟩) ∧
    (⟨[Item.A], false, false, 2⟩ : ConcurrentQueue Item).push Item.B =
      (Except.ok (), ⟨[Item.A, Item.B], false, false, 2⟩) ∧
    (⟨[Item.A, Item.B], false, false, 2⟩ : ConcurrentQueue Item).push Item.C =
      (Except.error Exception.QueueIsFull, ⟨[Item.A, Item.B], false, false, 2⟩) ∧
    ((⟨[Item.A, Item.B], false, false, 2⟩ : ConcurrentQueue Item).push_for_move Item.D 50 =
        (Except.error Exception.TimeoutError, ⟨[Item.A, Item.B], false, false, 2⟩) ∧
      (⟨[Item.A, Item.B], false, false, 2⟩ : ConcurrentQueue Item).push_for Item.D 50 =
        (Except.error Exception.TimeoutError, ⟨[Item.A, Item.B], false, false, 2⟩) ∧
      (⟨[Item.A, Item.B], false, false, 2⟩ : ConcurrentQueue Item).emplace_for 50 Item.D =
        (Except.error Exception.TimeoutError, ⟨[Item.A, Item.B], false, false, 2⟩)) ∧
    ((⟨[Item.A, Item.B], true, false, 2⟩ : ConcurrentQueue Item).push_for_move Item.D 50 =
        (Except.error Exception.QueueIsClosed, ⟨[Item.A, Item.B], true, false, 2⟩) ∧
      (⟨[Item.A, Item.B], true, false, 2⟩ : ConcurrentQueue Item).push_for Item.D 50 =
        (Except.error Exception.QueueIsClosed, ⟨[Item.A, Item.B], true, false, 2⟩) ∧
      (⟨[Item.A, Item.B], true, false, 2⟩ : ConcurrentQueue Item).emplace_for 50 Item.D =
        (Except.error Exception.QueueIsClosed, ⟨[Item.A, Item.B], true, false, 2⟩)) ∧
    ((⟨[Item.A], false, false, 2⟩ : ConcurrentQueue Item).push_for_move Item.D 50 =
        (Except.ok (), ⟨[Item.A, Item.D], false, false, 2⟩) ∧
      (⟨[Item.A], false, false, 2⟩ : ConcurrentQueue Item).push_for Item.D 50 =
        (Except.ok (), ⟨[Item.A, Item.D], false, false, 2⟩) ∧
      (⟨[Item.A], false, false, 2⟩ : ConcurrentQueue Item).emplace_for 50 Item.D =
        (Except.ok (), ⟨[Item.A, Item.D], false, false, 2⟩)) :=
  ⟨by decide, by decide, by decide, by decide,
   (C12_push_for_outcome (⟨[Item.A, Item.B], false, false, 2⟩ : ConcurrentQueue Item)
     Item.D 50).2.1 rfl (by decide),
   (C12_push_for_outcome (⟨[Item.A, Item.B], true, false, 2⟩ : ConcurrentQueue Item)
     Item.D 50).1 rfl,
   (C12_push_for_outcome (⟨[Item.A], false, false, 2⟩ : ConcurrentQueue Item)
     Item.D 50).2.2 rfl (by decide)⟩

/-- C14. Idempotent close: for every queue state `s`, `shutdown` after `shutdown` and
`terminate` after `terminate` change nothing, and `shutdown` after `terminate` leaves the
terminated state as it is. -/
theorem C14_idempotent_close (s : ConcurrentQueue α) :
    s.shutdown.shutdown = s.shutdown ∧
    s.terminate.terminate = s.terminate ∧
    s.terminate.shutdown = s.terminate := by
  refine ⟨rfl, rfl, rfl⟩

/-- C15. Queue construction fails, with `invalid_argument`, if and only if the requested
capacity is 0, and succeeds with an empty buffer otherwise; on a newly constructed queue of
capacity 1 the first push succeeds and a second push with no pull in between fails with Full,
the one item staying buffered. -/
theorem C15_construct_and_capacity_one (c : Nat) (indeterminate : Bool) (x y : α) :
    ((ConcurrentQueue.construct c indeterminate : Except Exception (ConcurrentQueue α)) =
        Except.error Exception.invalid_argument ↔ c = 0) ∧
    ((∃ q0 : ConcurrentQueue α, ConcurrentQueue.construct c indeterminate = Except.ok q0 ∧
        q0.queue = [] ∧ q0.max_size = c) ↔ c ≠ 0) ∧
    (∃ q0 q1 : ConcurrentQueue α,
      ConcurrentQueue.construct 1 indeterminate = Except.ok q0 ∧
      q0.push x = (Except.ok (), q1) ∧ q1.queue = [x] ∧
      q1.push y = (Except.error Exception.QueueIsFull, q1)) := by
  refine ⟨?_, ?_, ?_⟩
  · by_cases hc : c = 0
    · simp [ConcurrentQueue.construct, hc]
    · simp [ConcurrentQueue.construct, hc]
  · by_cases hc : c = 0
    · simp [ConcurrentQueue.construct, hc]
    · simp [ConcurrentQueue.construct, hc]
  · refine ⟨⟨[], false, indeterminate, 1⟩, ⟨[x], false, indeterminate, 1⟩, ?_, ?_, rfl, ?_⟩
    · simp [ConcurrentQueue.construct]
    · simp [ConcurrentQueue.push, ConcurrentQueue.full]
    · simp [ConcurrentQueue.push, ConcurrentQueue.full]

/-- C18 fails on the code. The constructor leaves `is_terminated_flag` at the value its
storage held: for every capacity other than 0 the constructed queue has `is_shutdown_flag`
clear and `is_terminated_flag` equal to that value. Where the value is `true`, on a new queue
of capacity 2 `push(A)` succeeds and `pull_for(50) -> T` throws `QueueIsClosed`, A staying
buffered; where it is `false`, the same calls return A. -/
theorem C18_terminated_flag_not_initialised :
    (∀ (c : Nat) (indeterminate : Bool), c ≠ 0 →
      (ConcurrentQueue.construct c indeterminate : Except Exception (ConcurrentQueue Item)) =
        Except.ok ⟨[], false, indeterminate, c⟩) ∧
    (ConcurrentQueue.construct 2 true : Except Exception (ConcurrentQueue Item)) =
      Except.ok ⟨[], false, true, 2⟩ ∧
    (⟨[], false, true, 2⟩ : ConcurrentQueue Item).push Item.A =
      (Except.ok (), ⟨[Item.A], false, true, 2⟩) ∧
    (⟨[Item.A], false, true, 2⟩ : ConcurrentQueue Item).pull_for 50 =
      (Except.error Exception.QueueIsClosed, ⟨[Item.A], false, true, 2⟩) ∧
    (ConcurrentQueue.construct 2 false : Except Exception (ConcurrentQueue Item)) =
      Except.ok ⟨[], false, false, 2⟩ ∧
    (⟨[], false, false, 2⟩ : ConcurrentQueue Item).push Item.A =
      (Except.ok (), ⟨[Item.A], false, false, 2⟩) ∧
    (⟨[Item.A], false, false, 2⟩ : ConcurrentQueue Item).pull_for 50 =
      (Except.ok Item.A, ⟨[], false, false, 2⟩) := by
  refine ⟨?_, by decide, by decide, by decide, by decide, by decide, by decide⟩
  intro c indeterminate hc
  simp [ConcurrentQueue.construct, hc]

/-- On a queue that is closed for input, every operation keeps `is_shutdown_flag` set, keeps
`is_terminated_flag` set if it was, and does not lengthen the buffer. -/
theorem apply_closed (op : QueueOp α) (q : ConcurrentQueue α)
    (h : q.is_shutdown_flag = true) :
    (op.apply q).is_shutdown_flag = true ∧
    (q.is_terminated_flag = true → (op.apply q).is_terminated_flag = true) ∧
    (op.apply q).size ≤ q.size := by
  obtain ⟨b, s, tf, m⟩ := q
  simp only at h
  subst h
  cases op <;> cases tf <;> cases b <;>
    simp [QueueOp.apply, ConcurrentQueue.size, ConcurrentQueue.push_move, ConcurrentQueue.push,
      ConcurrentQueue.push_for_move, ConcurrentQueue.push_for, ConcurrentQueue.emplace,
      ConcurrentQueue.emplace_for, ConcurrentQueue.pull_out, ConcurrentQueue.pull,
      ConcurrentQueue.pull_for_out, ConcurrentQueue.pull_for, ConcurrentQueue.shutdown,
      ConcurrentQueue.terminate]

theorem runOps_closed (ops : List (QueueOp α)) (q : ConcurrentQueue α)
    (h : q.is_shutdown_flag = true) :
    (runOps ops q).is_shutdown_flag = true ∧
    (q.is_terminated_flag = true → (runOps ops q).is_terminated_flag = true) ∧
    (runOps ops q).size ≤ q.size := by
  induction ops generalizing q with
  | nil => exact ⟨h, fun ht => ht, Nat.le_refl _⟩
  | cons op rest ih =>
    have h1 := apply_closed op q h
    have h2 := ih (op.apply q) h1.1
    exact ⟨h2.1, fun ht => h2.2.1 (h1.2.1 ht), Nat.le_trans h2.2.2 h1.2.2⟩

theorem runOps_append (ops1 ops2 : List (QueueOp α)) (q : ConcurrentQueue α) :
    runOps (ops1 ++ ops2) q = runOps ops2 (runOps ops1 q) := by
  simp [runOps, List.foldl_append]

/-- What holds from a closed-for-input state `s` on, after any operations `ops1` and any
further operations `ops2`. -/
theorem closed_from_then_on (s : ConcurrentQueue α) (hs : s.is_shutdown_flag = true)
    (ops1 ops2 : List (QueueOp α)) (v : α) (t : Nat) :
    (runOps ops1 s).is_shutdown_flag = true ∧
    (s.is_terminated_flag = true → (runOps ops1 s).is_terminated_flag = true) ∧
    (runOps ops1 s).push_move v = (Except.error Exception.QueueIsClosed, runOps ops1 s) ∧
    (runOps ops1 s).push v = (Except.error Exception.QueueIsClosed, runOps ops1 s) ∧
    (runOps ops1 s).push_for_move v t = (Except.error Exception.QueueIsClosed, runOps ops1 s) ∧
    (runOps ops1 s).push_for v t = (Except.error Exception.QueueIsClosed, runOps ops1 s) ∧
    (runOps ops1 s).emplace v = (Except.error Exception.QueueIsClosed, runOps ops1 s) ∧
    (runOps ops1 s).emplace_for t v = (Except.error Exception.QueueIsClosed, runOps ops1 s) ∧
    (runOps (ops1 ++ ops2) s).size ≤ (runOps ops1 s).size := by
  have h1 := runOps_closed ops1 s hs
  have h2 := runOps_closed ops2 (runOps ops1 s) h1.1
  have hf := h1.1
  refine ⟨h1.1, h1.2.1, ?_, ?_, ?_, ?_, ?_, ?_, ?_⟩
  · simp [ConcurrentQueue.push_move, hf]
  · simp [ConcurrentQueue.push, hf]
  · simp [ConcurrentQueue.push_for_move, hf]
  · simp [ConcurrentQueue.push_for, hf]
  · simp [ConcurrentQueue.emplace, hf]
  · simp [ConcurrentQueue.emplace_for, hf]
  · rw [runOps_append]
    exact h2.2.2

/-- C19. Closure is irreversible: no queue operation clears a closed flag. For every queue
state `q` and every sequence of operations applied after `shutdown()` (and likewise after
`terminate()`), the closed-for-input flag is set after every later operation (and after
`terminate()` the closed-for-all flag too), every later push, push_for, emplace and
emplace_for fails with Closed and changes nothing, and the queue length after any further
operations is never greater than before them. -/
theorem C19_closure_is_irreversible (q : ConcurrentQueue α) (ops1 ops2 : List (QueueOp α))
    (v : α) (t : Nat) :
    ((runOps ops1 q.shutdown).is_shutdown_flag = true ∧
      (runOps ops1 q.shutdown).push_move v =
        (Except.error Exception.QueueIsClosed, runOps ops1 q.shutdown) ∧
      (runOps ops1 q.shutdown).push v =
        (Except.error Exception.QueueIsClosed, runOps ops1 q.shutdown) ∧
      (runOps ops1 q.shutdown).push_for_move v t =
        (Except.error Exception.QueueIsClosed, runOps ops1 q.shutdown) ∧
      (runOps ops1 q.shutdown).push_for v t =
        (Except.error Exception.QueueIsClosed, runOps ops1 q.shutdown) ∧
      (runOps ops1 q.shutdown).emplace v =
        (Except.error Exception.QueueIsClosed, runOps ops1 q.shutdown) ∧
      (runOps ops1 q.shutdown).emplace_for t v =
        (Except.error Exception.QueueIsClosed, runOps ops1 q.shutdown) ∧
      (runOps (ops1 ++ ops2) q.shutdown).size ≤ (runOps ops1 q.shutdown).size ∧
      (runOps ops1 q.shutdown).size ≤ q.size) ∧
    ((runOps ops1 q.terminate).is_shutdown_flag = true ∧
      (runOps ops1 q.terminate).is_terminated_flag = true ∧
      (runOps ops1 q.terminate).push_move v =
        (Except.error Exception.QueueIsClosed, runOps ops1 q.terminate) ∧
      (runOps ops1 q.terminate).push v =
        (Except.error Exception.QueueIsClosed, runOps ops1 q.terminate) ∧
      (runOps ops1 q.terminate).push_for_move v t =
        (Except.error Exception.QueueIsClosed, runOps ops1 q.terminate) ∧
      (runOps ops1 q.terminate).push_for v t =
        (Except.error Exception.QueueIsClosed, runOps ops1 q.terminate) ∧
      (runOps ops1 q.terminate).emplace v =
        (Except.error Exception.QueueIsClosed, runOps ops1 q.terminate) ∧
      (runOps ops1 q.terminate).emplace_for t v =
        (Except.error Exception.QueueIsClosed, runOps ops1 q.terminate) ∧
      (runOps (ops1 ++ ops2) q.terminate).size ≤ (runOps ops1 q.terminate).size ∧
      (runOps ops1 q.terminate).size ≤ q.size) := by
  have hs := closed_from_then_on q.shutdown rfl ops1 ops2 v t
  have ht := closed_from_then_on q.terminate rfl ops1 ops2 v t
  have hs0 := (runOps_closed ops1 q.shutdown rfl).2.2
  have ht0 := (runOps_closed ops1 q.terminate rfl).2.2
  obtain ⟨a1, _, a3, a4, a5, a6, a7, a8, a9⟩ := hs
  obtain ⟨b1, b2, b3, b4, b5, b6, b7, b8, b9⟩ := ht
  exact ⟨⟨a1, a3, a4, a5, a6, a7, a8, a9, hs0⟩,
    ⟨b1, b2 rfl, b3, b4, b5, b6, b7, b8, b9, ht0⟩⟩

end concurrent

namespace ThreadPoolExecutor

open concurrent

theorem emplace_fields (q : ConcurrentQueue Func) (func : Func) :
    (q.emplace func).2.is_shutdown_flag = q.is_shutdown_flag ∧
    (q.emplace func).2.max_size = q.max_size := by
  unfold ConcurrentQueue.emplace
  split
  · exact ⟨rfl, rfl⟩
  · split <;> exact ⟨rfl, rfl⟩

theorem pull_for_out_fields (q : ConcurrentQueue Func) (t : Nat) :
    (q.pull_for_out t).2.is_shutdown_flag = q.is_shutdown_flag ∧
    (q.pull_for_out t).2.max_size = q.max_size ∧
    ((q.pull_for_out t).1 = Except.error Exception.QueueIsClosed →
      q.is_shutdown_flag = true) := by
  obtain ⟨b, s, tf, m⟩ := q
  cases s <;> cases b <;> simp [ConcurrentQueue.pull_for_out]

theorem lookup_mem (l : List (Nat × WorkerPoint)) (id : Nat) (p : WorkerPoint)
    (h : l.lookup id = some p) : (id, p) ∈ l := by
  induction l with
  | nil => simp [List.lookup] at h
  | cons w rest ih =>
    obtain ⟨k, pk⟩ := w
    by_cases hk : id = k
    · subst hk
      simp only [List.lookup_cons, beq_self_eq_true, Option.some.injEq] at h
      subst h
      exact List.mem_cons_self _ _
    · have hne : (id == k) = false := by
        simp only [beq_eq_false_iff_ne, ne_eq]
        exact hk
      simp only [List.lookup_cons, hne] at h
      exact List.mem_cons_of_mem _ (ih h)

theorem erase_absent (l : List (Nat × WorkerPoint)) (id : Nat)
    (h : id ∉ l.map Prod.fst) : l.filter (fun w => w.1 != id) = l := by
  rw [List.filter_eq_self]
  intro w hw
  have hne : w.1 ≠ id := by
    intro heq
    apply h
    rw [← heq]
    exact List.mem_map_of_mem Prod.fst hw
  simpa using hne

/-- With distinct ids, erasing a registered id shortens the registry by exactly one. -/
theorem erase_length (l : List (Nat × WorkerPoint)) (id : Nat) (p : WorkerPoint)
    (hn : (l.map Prod.fst).Nodup) (h : l.lookup id = some p) :
    (l.filter (fun w => w.1 != id)).length + 1 = l.length := by
  induction l with
  | nil => simp [List.lookup] at h
  | cons w rest ih =>
    obtain ⟨k, pk⟩ := w
    simp only [List.map_cons, List.nodup_cons] at hn
    by_cases hk : id = k
    · subst hk
      have hrest := erase_absent rest id hn.1
      simp only [List.filter_cons, bne_self_eq_false, Bool.false_eq_true, if_false, hrest,
        List.length_cons]
    · have hne : (id == k) = false := by
        simp only [beq_eq_false_iff_ne, ne_eq]
        exact hk
      have hne2 : (k != id) = true := by
        simp only [bne_iff_ne, ne_eq]
        exact fun h2 => hk h2.symm
      simp only [List.lookup_cons, hne] at h
      have h3 := ih hn.2 h
      simp only [List.filter_cons, hne2, if_true, List.length_cons]
      omega

theorem goto_keys (l : List (Nat × WorkerPoint)) (id : Nat) (p : WorkerPoint) :
    (l.map (fun w => if w.1 == id then (id, p) else w)).map Prod.fst = l.map Prod.fst := by
  induction l with
  | nil => rfl
  | cons w rest ih =>
    obtain ⟨k, pk⟩ := w
    by_cases hk : k = id
    · subst hk
      simp only [List.map_cons, beq_self_eq_true, if_true, ih]
    · have hne : (k == id) = false := by
        simp only [beq_eq_false_iff_ne, ne_eq]
        exact hk
      simp only [List.map_cons, hne, Bool.false_eq_true, if_false, ih]

theorem goto_mem (l : List (Nat × WorkerPoint)) (id : Nat) (p : WorkerPoint)
    (w : Nat × WorkerPoint)
    (h : w ∈ l.map (fun w => if w.1 == id then (id, p) else w)) :
    ∃ w0 ∈ l, w.1 = w0.1 ∧ (w.2 = p ∨ w.2 = w0.2) := by
  rw [List.mem_map] at h
  obtain ⟨w0, hw0, heq⟩ := h
  refine ⟨w0, hw0, ?_⟩
  by_cases hk : w0.1 = id
  · have hb : (w0.1 == id) = true := by simpa using hk
    simp only [hb, if_true] at heq
    subst heq
    exact ⟨hk.symm, Or.inl rfl⟩
  · have hb : (w0.1 == id) = false := by
      simp only [beq_eq_false_iff_ne, ne_eq]
      exact hk
    simp only [hb, Bool.false_eq_true, if_false] at heq
    subst heq
    exact ⟨rfl, Or.inr rfl⟩

theorem goto_consistent (e : ThreadPoolExecutor) (id : Nat) (p : WorkerPoint)
    (hc : Consistent e)
    (hp : e.queue.is_shutdown_flag = false → p ≠ WorkerPoint.caught_QueueIsClosed) :
    Consistent (goto e id p) := by
  obtain ⟨h1, h2, h3, h4, h5⟩ := hc
  refine ⟨?_, ?_, ?_, ?_, h5⟩
  · show ((e.workers_map.map _).map Prod.fst).Nodup
    rw [goto_keys]
    exact h1
  · intro w hw
    obtain ⟨w0, hw0, hfst, _⟩ := goto_mem e.workers_map id p w hw
    show w.1 < e.thread_count
    rw [hfst]
    exact h2 w0 hw0
  · intro hf w hw
    obtain ⟨w0, hw0, _, hsnd⟩ := goto_mem e.workers_map id p w hw
    cases hsnd with
    | inl h =>
      rw [h]
      exact hp hf
    | inr h =>
      rw [h]
      exact h3 hf w0 hw0
  · intro hf
    show e.pool_size ≤ (e.workers_map.map _).length
    rw [List.length_map]
    exact h4 hf

theorem with_queue_consistent (e : ThreadPoolExecutor) (q : ConcurrentQueue Func)
    (hc : Consistent e) (hf : q.is_shutdown_flag = e.queue.is_shutdown_flag)
    (hm : q.max_size = e.queue.max_size) :
    Consistent { e with queue := q } := by
  obtain ⟨h1, h2, h3, h4, h5⟩ := hc
  refine ⟨h1, h2, ?_, ?_, ?_⟩
  · intro hq
    exact h3 (by rw [← hf]; exact hq)
  · intro hq
    exact h4 (by rw [← hf]; exact hq)
  · show q.max_size = e.max_queue_size
    rw [hm]
    exact h5

theorem on_worker_exit_consistent (e : ThreadPoolExecutor) (id : Nat) (p : WorkerPoint)
    (hc : Consistent e) (hl : e.workers_map.lookup id = some p)
    (hok : e.queue.is_shutdown_flag = false → e.pool_size < e.workers_map.length) :
    Consistent (on_worker_exit e id) := by
  obtain ⟨h1, h2, h3, h4, h5⟩ := hc
  refine ⟨?_, ?_, ?_, ?_, h5⟩
  · show ((e.workers_map.filter _).map Prod.fst).Nodup
    exact List.Nodup.sublist (List.Sublist.map Prod.fst (List.filter_sublist _)) h1
  · intro w hw
    exact h2 w (List.mem_of_mem_filter hw)
  · intro hf w hw
    exact h3 hf w (List.mem_of_mem_filter hw)
  · intro hf
    have hlen := erase_length e.workers_map id p h1 hl
    have hlt := hok hf
    show e.pool_size ≤ (e.workers_map.filter _).length
    omega

theorem start_worker_consistent (e : ThreadPoolExecutor)
    (h1 : (e.workers_map.map Prod.fst).Nodup)
    (h2 : ∀ w ∈ e.workers_map, w.1 < e.thread_count)
    (h3 : e.queue.is_shutdown_flag = false →
      ∀ w ∈ e.workers_map, w.2 ≠ WorkerPoint.caught_QueueIsClosed) :
    ((start_worker e).workers_map.map Prod.fst).Nodup ∧
    (∀ w ∈ (start_worker e).workers_map, w.1 < (start_worker e).thread_count) ∧
    ((start_worker e).queue.is_shutdown_flag = false →
      ∀ w ∈ (start_worker e).workers_map, w.2 ≠ WorkerPoint.caught_QueueIsClosed) := by
  refine ⟨?_, ?_, ?_⟩
  · show ((e.workers_map ++ [(e.thread_count, WorkerPoint.at_pull_for)]).map Prod.fst).Nodup
    rw [List.map_append, List.nodup_append]
    refine ⟨h1, by simp, ?_⟩
    intro a ha hb
    simp only [List.map_cons, List.map_nil, List.mem_singleton] at hb
    rw [List.mem_map] at ha
    obtain ⟨w, hw, hwa⟩ := ha
    have hlt := h2 w hw
    omega
  · intro w hw
    show w.1 < e.thread_count + 1
    have hw2 : w ∈ e.workers_map ++ [(e.thread_count, WorkerPoint.at_pull_for)] := hw
    rw [List.mem_append] at hw2
    cases hw2 with
    | inl h => exact Nat.lt_succ_of_lt (h2 w h)
    | inr h =>
      simp only [List.mem_singleton] at h
      subst h
      exact Nat.lt_succ_self _
  · intro hf w hw
    have hw2 : w ∈ e.workers_map ++ [(e.thread_count, WorkerPoint.at_pull_for)] := hw
    rw [List.mem_append] at hw2
    cases hw2 with
    | inl h => exact h3 hf w h
    | inr h =>
      simp only [List.mem_singleton] at h
      subst h
      exact fun hcontra => WorkerPoint.noConfusion hcontra

theorem start_workers_consistent (n : Nat) (e : ThreadPoolExecutor)
    (h1 : (e.workers_map.map Prod.fst).Nodup)
    (h2 : ∀ w ∈ e.workers_map, w.1 < e.thread_count)
    (h3 : e.queue.is_shutdown_flag = false →
      ∀ w ∈ e.workers_map, w.2 ≠ WorkerPoint.caught_QueueIsClosed) :
    ((start_workers n e).workers_map.map Prod.fst).Nodup ∧
    (∀ w ∈ (start_workers n e).workers_map, w.1 < (start_workers n e).thread_count) ∧
    ((start_workers n e).queue.is_shutdown_flag = false →
      ∀ w ∈ (start_workers n e).workers_map, w.2 ≠ WorkerPoint.caught_QueueIsClosed) ∧
    (start_workers n e).queue = e.queue ∧
    (start_workers n e).max_queue_size = e.max_queue_size := by
  induction n generalizing e with
  | zero => exact ⟨h1, h2, h3, rfl, rfl⟩
  | succ k ih =>
    have hs := start_worker_consistent e h1 h2 h3
    have hk := ih (start_worker e) hs.1 hs.2.1 hs.2.2
    exact ⟨hk.1, hk.2.1, hk.2.2.1, hk.2.2.2.1, hk.2.2.2.2⟩

/-- The state left by the constructor is consistent and registers exactly `pool_size`
workers. -/
theorem construct_consistent (pool_size max_pool_size keep_alive_time max_queue_size : Nat)
    (indeterminate : Bool) (e : ThreadPoolExecutor)
    (h : construct pool_size max_pool_size keep_alive_time max_queue_size indeterminate =
      Except.ok e) :
    Consistent e ∧ e.workers_map.length = pool_size ∧ e.pool_size = pool_size ∧
    e.queue.is_shutdown_flag = false := by
  unfold construct at h
  cases hq : (ConcurrentQueue.construct max_queue_size indeterminate :
      Except Exception (ConcurrentQueue Func)) with
  | error ex => simp [hq] at h
  | ok q =>
    simp only [hq, Except.ok.injEq] at h
    have hq2 : q.is_shutdown_flag = false ∧ q.max_size = max_queue_size := by
      unfold ConcurrentQueue.construct at hq
      split at hq
      · exact absurd hq (by simp)
      · simp only [Except.ok.injEq] at hq
        subst hq
        exact ⟨rfl, rfl⟩
    have hr := start_workers_registry pool_size
      { pool_size := pool_size,
        max_pool_size := if max_pool_size != 0 then max_pool_size else pool_size,
        max_queue_size := max_queue_size,
        keep_alive_time := keep_alive_time,
        workers_map := [],
        queue := q,
        thread_count := 0,
        executed := [],
        callers_after_emplace := 0,
        callers_before_lock := 0 }
    have hs := start_workers_consistent pool_size
      { pool_size := pool_size,
        max_pool_size := if max_pool_size != 0 then max_pool_size else pool_size,
        max_queue_size := max_queue_size,
        keep_alive_time := keep_alive_time,
        workers_map := [],
        queue := q,
        thread_count := 0,
        executed := [],
        callers_after_emplace := 0,
        callers_before_lock := 0 }
      (by simp) (by simp) (by simp)
    rw [h] at hr hs
    obtain ⟨s1, s2, s3, s4, s5⟩ := hs
    have hlen : e.workers_map.length = pool_size := by
      rw [hr.1]
      simp
    have hflag : e.queue.is_shutdown_flag = false := by
      rw [s4]
      exact hq2.1
    refine ⟨⟨s1, s2, s3, ?_, ?_⟩, hlen, hr.2.2, hflag⟩
    · intro _
      rw [hr.2.2, hlen]
    · rw [s4, s5]
      exact hq2.2

theorem poll_queue_consistent (e e1 : ThreadPoolExecutor) (id : Nat)
    (h : poll_queue e id = some e1) (hc : Consistent e) : Consistent e1 := by
  unfold poll_queue at h
  split at h
  · exact absurd h (by simp)
  · have hf := pull_for_out_fields e.queue e.keep_alive_time
    split at h
    · rename_i func q heq
      have h1 := Option.some.inj h
      subst h1
      rw [heq] at hf
      exact goto_consistent _ id _ (with_queue_consistent e q hc hf.1 hf.2.1)
        (fun _ hcontra => WorkerPoint.noConfusion hcontra)
    · have h1 := Option.some.inj h
      subst h1
      exact goto_consistent e id _ hc (fun _ hcontra => WorkerPoint.noConfusion hcontra)
    · rename_i q heq
      have h1 := Option.some.inj h
      subst h1
      rw [heq] at hf
      have hclosed : e.queue.is_shutdown_flag = true := hf.2.2 rfl
      exact goto_consistent e id _ hc (fun hopen => by rw [hclosed] at hopen; cases hopen)
    · exact absurd h (by simp)
  · have h1 := Option.some.inj h
    subst h1
    exact goto_consistent _ id _ hc (fun _ hcontra => WorkerPoint.noConfusion hcontra)
  · rename_i hl
    split at h
    · rename_i hgt
      have h1 := Option.some.inj h
      subst h1
      exact on_worker_exit_consistent e id _ hc hl (fun _ => hgt)
    · have h1 := Option.some.inj h
      subst h1
      exact goto_consistent e id _ hc (fun _ hcontra => WorkerPoint.noConfusion hcontra)
  · rename_i hl
    have h1 := Option.some.inj h
    subst h1
    refine on_worker_exit_consistent e id _ hc hl ?_
    intro hopen
    exact absurd rfl (hc.2.2.1 hopen _ (lookup_mem e.workers_map id _ hl))

/-- Every atomic step keeps the state consistent and keeps `pool_size`. -/
theorem step_consistent (e e1 : ThreadPoolExecutor) (a : Action) (h : step e a = some e1)
    (hc : Consistent e) : Consistent e1 ∧ e1.pool_size = e.pool_size := by
  cases a with
  | submit_emplace func =>
    simp only [step, Option.some.injEq] at h
    subst h
    have hf := emplace_fields e.queue func
    unfold submit_emplace
    split
    · exact ⟨hc, rfl⟩
    · rename_i q heq
      rw [heq] at hf
      exact ⟨with_queue_consistent e q hc hf.1 hf.2, rfl⟩
  | submit_empty_test =>
    simp only [step, submit_empty_test] at h
    split at h
    · exact absurd h (by simp)
    · split at h <;>
      · have h1 := Option.some.inj h
        subst h1
        exact ⟨hc, rfl⟩
  | submit_locked =>
    simp only [step, submit_locked] at h
    split at h
    · exact absurd h (by simp)
    · split at h
      · have h1 := Option.some.inj h
        subst h1
        obtain ⟨c1, c2, c3, c4, c5⟩ := hc
        have hs := start_worker_consistent
          { e with callers_before_lock := e.callers_before_lock - 1 } c1 c2 c3
        refine ⟨⟨hs.1, hs.2.1, hs.2.2, ?_, c5⟩, rfl⟩
        intro hopen
        have hlen := c4 hopen
        show e.pool_size ≤ (e.workers_map ++ [(e.thread_count, WorkerPoint.at_pull_for)]).length
        rw [List.length_append]
        exact Nat.le_trans hlen (Nat.le_add_right _ _)
      · have h1 := Option.some.inj h
        subst h1
        exact ⟨hc, rfl⟩
  | shutdown =>
    simp only [step, Option.some.injEq] at h
    subst h
    obtain ⟨c1, c2, c3, c4, c5⟩ := hc
    refine ⟨⟨c1, c2, ?_, ?_, c5⟩, rfl⟩
    · intro hopen
      exact absurd hopen (by simp [shutdown, ConcurrentQueue.close, ConcurrentQueue.shutdown])
    · intro hopen
      exact absurd hopen (by simp [shutdown, ConcurrentQueue.close, ConcurrentQueue.shutdown])
  | poll_queue id =>
    simp only [step] at h
    exact ⟨poll_queue_consistent e e1 id h hc, (poll_queue_registry e e1 id h).2.2⟩

theorem run_consistent (actions : List Action) (e e1 : ThreadPoolExecutor)
    (h : run actions e = some e1) (hc : Consistent e) :
    Consistent e1 ∧ e1.pool_size = e.pool_size := by
  induction actions generalizing e with
  | nil =>
    simp only [run, Option.some.injEq] at h
    subst h
    exact ⟨hc, rfl⟩
  | cons a rest ih =>
    simp only [run] at h
    cases hs : step e a with
    | none => simp [hs] at h
    | some e2 =>
      simp only [hs] at h
      have h2 := step_consistent e e2 a hs hc
      have h3 := ih e2 h h2.1
      exact ⟨h3.1, h3.2.trans h2.2⟩

/-- C11. Running keeps the core alive: construction registers exactly `pool_size` workers
on a queue open for input, and in every state reached from construction by any interleaving
of the atomic steps of submit calls, worker threads and shutdown (tasks return normally) in
which the queue's input is still open, the registry holds at least `pool_size` workers. A
worker that timed out is erased only in the step that finds more than `pool_size` workers
registered, and that step removes exactly that one entry. -/
theorem C11_running_keeps_core (pool_size max_pool_size keep_alive_time max_queue_size : Nat)
    (indeterminate : Bool) (actions : List Action) (e0 e : ThreadPoolExecutor)
    (h0 : construct pool_size max_pool_size keep_alive_time max_queue_size indeterminate =
      Except.ok e0)
    (hr : run actions e0 = some e) (hopen : is_active e = true) :
    e0.workers_map.length = pool_size ∧ is_active e0 = true ∧
    e.pool_size = pool_size ∧ pool_size ≤ e.workers_map.length ∧
    (∀ (id : Nat) (e1 : ThreadPoolExecutor),
      e.workers_map.lookup id = some WorkerPoint.caught_TimeoutError →
      poll_queue e id = some e1 →
      (e1.workers_map.length = e.workers_map.length ∧
        e.workers_map.length ≤ pool_size) ∨
      (e1.workers_map.length + 1 = e.workers_map.length ∧
        pool_size < e.workers_map.length ∧ e1.workers_map.lookup id = none)) := by
  have hc0 := construct_consistent pool_size max_pool_size keep_alive_time max_queue_size
    indeterminate e0 h0
  have hc := run_consistent actions e0 e hr hc0.1
  have hflag : e.queue.is_shutdown_flag = false := by
    simpa [is_active, ConcurrentQueue.is_closed, ConcurrentQueue.is_shutdown] using hopen
  have hps : e.pool_size = pool_size := hc.2.trans hc0.2.2.1
  refine ⟨hc0.2.1, ?_, hps, ?_, ?_⟩
  · simp [is_active, ConcurrentQueue.is_closed, ConcurrentQueue.is_shutdown, hc0.2.2.2]
  · rw [← hps]
    exact hc.1.2.2.2.1 hflag
  · intro id e1 hl hp
    unfold poll_queue at hp
    rw [hl] at hp
    simp only at hp
    by_cases hgt : e.workers_map.length > e.pool_size
    · simp only [hgt, if_true, Option.some.injEq] at hp
      subst hp
      right
      refine ⟨erase_length e.workers_map id _ hc.1.1 hl, ?_, lookup_after_erase e.workers_map id⟩
      rw [← hps]
      exact hgt
    · simp only [hgt, if_false, Option.some.injEq] at hp
      subst hp
      left
      refine ⟨(goto_registry e id _).1, ?_⟩
      rw [← hps]
      omega

/-- C11 with pool_size 2 and max_pool_size 4: three submits grow the registry to 4, three
workers take the tasks, the fourth times out and exits; the queue is still open and three
workers, at least pool_size, are registered. -/
theorem C11_running_keeps_core_witness :
    construct 2 4 100 8 false =
      Except.ok
        { pool_size := 2, max_pool_size := 4, max_queue_size := 8, keep_alive_time := 100,
          workers_map := [(0, WorkerPoint.at_pull_for), (1, WorkerPoint.at_pull_for)],
          queue := ⟨[], false, false, 8⟩, thread_count := 2, executed := [],
          callers_after_emplace := 0, callers_before_lock := 0 } ∧
    run [Action.submit_emplace 1, Action.submit_emplace 2, Action.submit_emplace 3,
         Action.submit_empty_test, Action.submit_locked, Action.submit_empty_test,
         Action.submit_locked, Action.submit_empty_test, Action.submit_locked,
         Action.poll_queue 0, Action.poll_queue 1, Action.poll_queue 2, Action.poll_queue 3,
         Action.poll_queue 3]
        { pool_size := 2, max_pool_size := 4, max_queue_size := 8, keep_alive_time := 100,
          workers_map := [(0, WorkerPoint.at_pull_for), (1, WorkerPoint.at_pull_for)],
          queue := ⟨[], false, false, 8⟩, thread_count := 2, executed := [],
          callers_after_emplace := 0, callers_before_lock := 0 } =
      some
        { pool_size := 2, max_pool_size := 4, max_queue_size := 8, keep_alive_time := 100,
          workers_map := [(0, WorkerPoint.at_func 1), (1, WorkerPoint.at_func 2),
                          (2, WorkerPoint.at_func 3)],
          queue := ⟨[], false, false, 8⟩, thread_count := 4, executed := [],
          callers_after_emplace := 0, callers_before_lock := 0 } ∧
    2 ≤ [(0, WorkerPoint.at_func 1), (1, WorkerPoint.at_func 2),
         (2, WorkerPoint.at_func 3)].length :=
  ⟨by decide, by decide,
   (C11_running_keeps_core 2 4 100 8 false
      [Action.submit_emplace 1, Action.submit_emplace 2, Action.submit_emplace 3,
       Action.submit_empty_test, Action.submit_locked, Action.submit_empty_test,
       Action.submit_locked, Action.submit_empty_test, Action.submit_locked,
       Action.poll_queue 0, Action.poll_queue 1, Action.poll_queue 2, Action.poll_queue 3,
       Action.poll_queue 3]
      { pool_size := 2, max_pool_size := 4, max_queue_size := 8, keep_alive_time := 100,
        workers_map := [(0, WorkerPoint.at_pull_for), (1, WorkerPoint.at_pull_for)],
        queue := ⟨[], false, false, 8⟩, thread_count := 2, executed := [],
        callers_after_emplace := 0, callers_before_lock := 0 }
      { pool_size := 2, max_pool_size := 4, max_queue_size := 8, keep_alive_time := 100,
        workers_map := [(0, WorkerPoint.at_func 1), (1, WorkerPoint.at_func 2),
                        (2, WorkerPoint.at_func 3)],
        queue := ⟨[], false, false, 8⟩, thread_count := 4, executed := [],
        callers_after_emplace := 0, callers_before_lock := 0 }
      (by decide) (by decide) (by decide)).2.2.2.1⟩

/-- C13. Submit failure is atomic and unchanged. For every executor state: if the queue is
closed-for-input (`is_active()` is false) submit fails with Closed; if the queue is open, has
the capacity max_queue_size and holds that many tasks, submit fails with Full. In both cases
the error returned is the queue's, and the executor state after the call is the state before
it: the task is not enqueued and the registry is unchanged. Every state reached from
construction has a queue of capacity max_queue_size. -/
theorem C13_submit_failure (e : ThreadPoolExecutor) (func : Func) :
    (is_active e = false →
      submit e func = (Except.error Exception.QueueIsClosed, e) ∧
      submit_emplace e func = e) ∧
    (is_active e = true → e.queue.max_size = e.max_queue_size →
      e.queue.size ≥ e.max_queue_size →
      submit e func = (Except.error Exception.QueueIsFull, e) ∧
      submit_emplace e func = e) ∧
    (∀ (pool_size max_pool_size keep_alive_time max_queue_size : Nat) (indeterminate : Bool)
      (actions : List Action) (e1 : ThreadPoolExecutor),
      runFromConstruction pool_size max_pool_size keep_alive_time max_queue_size
        indeterminate actions = some e1 →
      e1.queue.max_size = e1.max_queue_size) := by
  refine ⟨?_, ?_, ?_⟩
  · intro ha
    have hf : e.queue.is_shutdown_flag = true := by
      simpa [is_active, ConcurrentQueue.is_closed, ConcurrentQueue.is_shutdown] using ha
    simp [submit, submit_emplace, ConcurrentQueue.emplace, hf]
  · intro ha hm hfull
    have hf : e.queue.is_shutdown_flag = false := by
      simpa [is_active, ConcurrentQueue.is_closed, ConcurrentQueue.is_shutdown] using ha
    have hfull2 : e.queue.max_size ≤ e.queue.queue.length := by
      rw [hm]
      exact hfull
    simp [submit, submit_emplace, ConcurrentQueue.emplace, ConcurrentQueue.full, hf, hfull2]
  · intro pool_size max_pool_size keep_alive_time max_queue_size indeterminate actions e1 hr
    unfold runFromConstruction at hr
    split at hr
    · exact absurd hr (by simp)
    · rename_i e0 h0
      have hc0 := construct_consistent pool_size max_pool_size keep_alive_time max_queue_size
        indeterminate e0 h0
      exact (run_consistent actions e0 e1 hr hc0.1).1.2.2.2.2

/-- C13 at two states of an executor with pool_size 1 and max_queue_size 2: after shutdown,
and open with a full queue. -/
theorem C13_submit_failure_witness :
    submit
      { pool_size := 1, max_pool_size := 1, max_queue_size := 2, keep_alive_time := 0,
        workers_map := [(0, WorkerPoint.at_func 7)], queue := ⟨[8], true, false, 2⟩,
        thread_count := 1, executed := [], callers_after_emplace := 0,
        callers_before_lock := 0 } 9 =
      (Except.error Exception.QueueIsClosed,
        { pool_size := 1, max_pool_size := 1, max_queue_size := 2, keep_alive_time := 0,
          workers_map := [(0, WorkerPoint.at_func 7)], queue := ⟨[8], true, false, 2⟩,
          thread_count := 1, executed := [], callers_after_emplace := 0,
          callers_before_lock := 0 }) ∧
    submit
      { pool_size := 1, max_pool_size := 1, max_queue_size := 2, keep_alive_time := 0,
        workers_map := [(0, WorkerPoint.at_func 7)], queue := ⟨[8, 9], false, false, 2⟩,
        thread_count := 1, executed := [], callers_after_emplace := 0,
        callers_before_lock := 0 } 10 =
      (Except.error Exception.QueueIsFull,
        { pool_size := 1, max_pool_size := 1, max_queue_size := 2, keep_alive_time := 0,
          workers_map := [(0, WorkerPoint.at_func 7)], queue := ⟨[8, 9], false, false, 2⟩,
          thread_count := 1, executed := [], callers_after_emplace := 0,
          callers_before_lock := 0 }) :=
  ⟨((C13_submit_failure
      { pool_size := 1, max_pool_size := 1, max_queue_size := 2, keep_alive_time := 0,
        workers_map := [(0, WorkerPoint.at_func 7)], queue := ⟨[8], true, false, 2⟩,
        thread_count := 1, executed := [], callers_after_emplace := 0,
        callers_before_lock := 0 } 9).1 (by decide)).1,
   ((C13_submit_failure
      { pool_size := 1, max_pool_size := 1, max_queue_size := 2, keep_alive_time := 0,
        workers_map := [(0, WorkerPoint.at_func 7)], queue := ⟨[8, 9], false, false, 2⟩,
        thread_count := 1, executed := [], callers_after_emplace := 0,
        callers_before_lock := 0 } 10).2.1 (by decide) (by decide) (by decide)).1⟩

theorem with_callers_zero (e : ThreadPoolExecutor) : with_callers 0 0 e = e := rfl

theorem poll_queue_with_callers (a b : Nat) (e : ThreadPoolExecutor) (id : Nat) :
    poll_queue (with_callers a b e) id = Option.map (with_callers a b) (poll_queue e id) := by
  unfold poll_queue
  simp only [with_callers]
  cases hl : List.lookup id e.workers_map with
  | none => rfl
  | some p =>
    cases p with
    | at_pull_for =>
      simp only []
      cases hp : e.queue.pull_for_out e.keep_alive_time with
      | mk r q =>
        cases r with
        | ok f => rfl
        | error ex => cases ex <;> rfl
    | at_func f => rfl
    | caught_TimeoutError =>
      simp only []
      split <;> rfl
    | caught_QueueIsClosed => rfl

/-- The steps of the other threads do not depend on how many further callers of `submit`
stand between its steps. -/
theorem step_with_callers (a b : Nat) (e e1 : ThreadPoolExecutor) (act : Action)
    (h : step e act = some e1) :
    step (with_callers a b e) act = some (with_callers a b e1) := by
  cases act with
  | submit_emplace func =>
    simp only [step, Option.some.injEq] at h
    subst h
    simp only [step, Option.some.injEq]
    unfold submit_emplace
    simp only [with_callers]
    cases hq : e.queue.emplace func with
    | mk r q =>
      cases r with
      | error ex => rfl
      | ok u =>
        simp only [ThreadPoolExecutor.mk.injEq, true_and, and_true]
        omega
  | submit_empty_test =>
    simp only [step, submit_empty_test] at h
    simp only [step, submit_empty_test, with_callers]
    split at h
    · exact absurd h (by simp)
    · rename_i hz
      have hz2 : ¬ (e.callers_after_emplace + a = 0) := by omega
      simp only [hz2, if_false]
      split at h
      · rename_i hne
        have h1 := Option.some.inj h
        subst h1
        simp only [hne, if_true, Option.some.injEq, ThreadPoolExecutor.mk.injEq, true_and]
        omega
      · rename_i hne
        have h1 := Option.some.inj h
        subst h1
        simp only [hne, Bool.false_eq_true, if_false, Option.some.injEq,
          ThreadPoolExecutor.mk.injEq, true_and, and_true]
        omega
  | submit_locked =>
    simp only [step, submit_locked] at h
    simp only [step, submit_locked, with_callers]
    split at h
    · exact absurd h (by simp)
    · rename_i hz
      have hz2 : ¬ (e.callers_before_lock + b = 0) := by omega
      simp only [hz2, if_false]
      split at h
      · rename_i hlt
        have h1 := Option.some.inj h
        subst h1
        simp only [hlt, if_true, start_worker, Option.some.injEq, ThreadPoolExecutor.mk.injEq,
          true_and]
        omega
      · rename_i hlt
        have h1 := Option.some.inj h
        subst h1
        simp only [hlt, if_false, Option.some.injEq, ThreadPoolExecutor.mk.injEq, true_and]
        omega
  | shutdown =>
    simp only [step, Option.some.injEq] at h
    subst h
    rfl
  | poll_queue id =>
    simp only [step] at h
    simp only [step]
    rw [poll_queue_with_callers, h]
    rfl

theorem run_with_callers (a b : Nat) (acts : List Action) (e e1 : ThreadPoolExecutor)
    (h : run acts e = some e1) :
    run acts (with_callers a b e) = some (with_callers a b e1) := by
  induction acts generalizing e with
  | nil =>
    simp only [run, Option.some.injEq] at h
    subst h
    rfl
  | cons act rest ih =>
    simp only [run] at h
    cases hs : step e act with
    | none => simp [hs] at h
    | some e2 =>
      simp only [hs] at h
      simp only [run, step_with_callers a b e e2 act hs]
      exact ih e2 h

theorem run_append (acts1 acts2 : List Action) (e e1 : ThreadPoolExecutor)
    (h : run acts1 e = some e1) : run (acts1 ++ acts2) e = run acts2 e1 := by
  induction acts1 generalizing e with
  | nil =>
    simp only [run, Option.some.injEq] at h
    subst h
    rfl
  | cons act rest ih =>
    simp only [run] at h
    cases hs : step e act with
    | none => simp [hs] at h
    | some e2 =>
      simp only [hs] at h
      simp only [List.cons_append, run, hs]
      exact ih e2 h

theorem submit_emplace_ok (e : ThreadPoolExecutor) (func : Func) (q : ConcurrentQueue Func)
    (hq : e.queue.emplace func = (Except.ok (), q)) :
    submit_emplace e func = with_callers 1 0 { e with queue := q } := by
  unfold submit_emplace
  rw [hq]
  rfl

theorem submit_empty_test_of_caller (e : ThreadPoolExecutor) :
    submit_empty_test (with_callers 1 0 e) =
      some (if !e.queue.empty then with_callers 0 1 e else e) := by
  obtain ⟨ps, mps, mqs, kat, wm, q, tc, ex, ca, cb⟩ := e
  cases hq : q.empty <;> simp [submit_empty_test, with_callers, hq]

theorem submit_locked_of_caller (e : ThreadPoolExecutor) :
    submit_locked (with_callers 0 1 e) = some (submit_after_test true e) := by
  obtain ⟨ps, mps, mqs, kat, wm, q, tc, ex, ca, cb⟩ := e
  have hz : ¬ (cb + 1 = 0) := by omega
  by_cases hlt : wm.length < mps
  · simp only [submit_locked, with_callers, submit_after_test, start_worker, hz, hlt, if_false,
      if_true, Option.some.injEq, ThreadPoolExecutor.mk.injEq, true_and]
    omega
  · simp only [submit_locked, with_callers, submit_after_test, hz, hlt, if_false, if_true,
      Option.some.injEq, ThreadPoolExecutor.mk.injEq, true_and]
    omega

theorem submit_after_test_registry (observed : Bool) (e : ThreadPoolExecutor) :
    ((submit_after_test observed e).workers_map.length = e.workers_map.length ∨
      (submit_after_test observed e).workers_map.length = e.workers_map.length + 1) ∧
    ((submit_after_test observed e).workers_map.length = e.workers_map.length + 1 ↔
      (observed = true ∧ e.workers_map.length < e.max_pool_size)) ∧
    ((observed = true ∧ e.workers_map.length < e.max_pool_size) →
      (submit_after_test observed e).workers_map =
        e.workers_map ++ [(e.thread_count, WorkerPoint.at_pull_for)]) ∧
    (¬ (observed = true ∧ e.workers_map.length < e.max_pool_size) →
      submit_after_test observed e = e) := by
  cases observed with
  | false => simp [submit_after_test]
  | true =>
    by_cases hlt : e.workers_map.length < e.max_pool_size
    · simp [submit_after_test, start_worker, hlt]
    · simp [submit_after_test, hlt]

/-- C17. Growth step of submit, for one call of submit among other threads. Let the enqueue
succeed, let the other threads take any steps `others1` before the caller tests
`queue.empty()` in the state `e2`, and any steps `others2` before the caller reaches the
locked block (or returns) in the state `e3`. Then the call succeeds, and relative to the
registry of `e3` it changes the registry size by 0 or +1; it adds exactly one worker,
appended as a new entry, if and only if the queue was observed non-empty in `e2` and the
registry is observed in `e3` to hold fewer than max_pool_size workers; otherwise it leaves
the state `e3` unchanged. The same call is a run of the atomic steps `submit_emplace`,
`submit_empty_test` and, when the queue was observed non-empty, `submit_locked`, with the
other threads' steps in between, and it ends in the same state. With no other thread in
between, the call is `submit`. -/
theorem C17_submit_growth (e : ThreadPoolExecutor) (func : Func)
    (others1 others2 : List Action) (q : ConcurrentQueue Func) (e2 e3 : ThreadPoolExecutor)
    (hq : e.queue.emplace func = (Except.ok (), q))
    (h1 : run others1 { e with queue := q } = some e2)
    (h2 : run others2 e2 = some e3) :
    submit_among e func others1 others2 =
      some (Except.ok (), submit_after_test (!e2.queue.empty) e3) ∧
    ((submit_after_test (!e2.queue.empty) e3).workers_map.length = e3.workers_map.length ∨
      (submit_after_test (!e2.queue.empty) e3).workers_map.length =
        e3.workers_map.length + 1) ∧
    ((submit_after_test (!e2.queue.empty) e3).workers_map.length =
        e3.workers_map.length + 1 ↔
      (e2.queue.empty = false ∧ e3.workers_map.length < e3.max_pool_size)) ∧
    ((e2.queue.empty = false ∧ e3.workers_map.length < e3.max_pool_size) →
      (submit_after_test (!e2.queue.empty) e3).workers_map =
        e3.workers_map ++ [(e3.thread_count, WorkerPoint.at_pull_for)]) ∧
    (¬ (e2.queue.empty = false ∧ e3.workers_map.length < e3.max_pool_size) →
      submit_after_test (!e2.queue.empty) e3 = e3) ∧
    (e2.queue.empty = false →
      run (Action.submit_emplace func ::
        (others1 ++ Action.submit_empty_test :: (others2 ++ [Action.submit_locked]))) e =
        some (submit_after_test (!e2.queue.empty) e3)) ∧
    (e2.queue.empty = true →
      run (Action.submit_emplace func :: (others1 ++ Action.submit_empty_test :: others2)) e =
        some (submit_after_test (!e2.queue.empty) e3)) ∧
    submit_among e func [] [] = some (submit e func) := by
  have hreg := submit_after_test_registry (!e2.queue.empty) e3
  have hobs : ((!e2.queue.empty) = true) ↔ (e2.queue.empty = false) := by
    cases e2.queue.empty <;> simp
  have hstart : run [Action.submit_emplace func] e =
      some (with_callers 1 0 { e with queue := q }) := by
    simp only [run, step, submit_emplace_ok e func q hq]
  have hmid : run (Action.submit_emplace func :: others1) e = some (with_callers 1 0 e2) := by
    have h := run_append [Action.submit_emplace func] others1 e _ hstart
    rw [List.singleton_append] at h
    rw [h]
    exact run_with_callers 1 0 others1 _ e2 h1
  refine ⟨?_, hreg.1, ?_, ?_, ?_, ?_, ?_, ?_⟩
  · unfold submit_among
    rw [hq]
    simp only [h1, h2]
  · rw [hreg.2.1, hobs]
  · intro hc
    exact hreg.2.2.1 ⟨hobs.2 hc.1, hc.2⟩
  · intro hc
    exact hreg.2.2.2 (fun hc2 => hc ⟨hobs.1 hc2.1, hc2.2⟩)
  · intro hne
    have hne2 : (!e2.queue.empty) = true := hobs.2 hne
    have h := run_append (Action.submit_emplace func :: others1)
      (Action.submit_empty_test :: (others2 ++ [Action.submit_locked])) e _ hmid
    rw [List.cons_append] at h
    rw [h]
    simp only [run, step, submit_empty_test_of_caller, hne2, if_true]
    have h3 := run_append others2 [Action.submit_locked] _ _
      (run_with_callers 0 1 others2 e2 e3 h2)
    rw [h3]
    simp only [run, step, submit_locked_of_caller]
  · intro hemp
    have h := run_append (Action.submit_emplace func :: others1)
      (Action.submit_empty_test :: others2) e _ hmid
    rw [List.cons_append] at h
    rw [h]
    simp only [run, step, submit_empty_test_of_caller, hemp, Bool.not_true,
      Bool.false_eq_true, if_false]
    rw [h2]
    rfl
  · unfold submit_among submit
    cases hr : e.queue.emplace func with
    | mk r q1 =>
      cases r with
      | error ex => rfl
      | ok u =>
        simp only [run, submit_after_test]
        by_cases hne : (!q1.empty) = true
        · by_cases hlt : e.workers_map.length < e.max_pool_size
          · simp [hne, hlt]
          · simp [hne, hlt]
        · simp [hne]

/-- C17 on a new executor with pool_size 1 and max_queue_size 2, submitting task 5. With
max_pool_size 3: when worker 0 pulls the task before the caller tests `queue.empty()`, the
queue is observed empty and no worker is added; when no other thread runs in between, the
queue is observed non-empty and a second worker is registered. With max_pool_size 1 the
queue is observed non-empty, the registry is at its ceiling and no worker is added. -/
theorem C17_submit_growth_witness :
    (submit_among
      { pool_size := 1, max_pool_size := 3, max_queue_size := 2, keep_alive_time := 0,
        workers_map := [(0, WorkerPoint.at_pull_for)],
        queue := ⟨[], false, false, 2⟩, thread_count := 1, executed := [],
        callers_after_emplace := 0, callers_before_lock := 0 } 5
      [Action.poll_queue 0] [] =
      some (Except.ok (),
        { pool_size := 1, max_pool_size := 3, max_queue_size := 2, keep_alive_time := 0,
          workers_map := [(0, WorkerPoint.at_func 5)],
          queue := ⟨[], false, false, 2⟩, thread_count := 1, executed := [],
          callers_after_emplace := 0, callers_before_lock := 0 }) ∧
     run [Action.submit_emplace 5, Action.poll_queue 0, Action.submit_empty_test]
      { pool_size := 1, max_pool_size := 3, max_queue_size := 2, keep_alive_time := 0,
        workers_map := [(0, WorkerPoint.at_pull_for)],
        queue := ⟨[], false, false, 2⟩, thread_count := 1, executed := [],
        callers_after_emplace := 0, callers_before_lock := 0 } =
      some
        { pool_size := 1, max_pool_size := 3, max_queue_size := 2, keep_alive_time := 0,
          workers_map := [(0, WorkerPoint.at_func 5)],
          queue := ⟨[], false, false, 2⟩, thread_count := 1, executed := [],
          callers_after_emplace := 0, callers_before_lock := 0 }) ∧
    (submit_among
      { pool_size := 1, max_pool_size := 3, max_queue_size := 2, keep_alive_time := 0,
        workers_map := [(0, WorkerPoint.at_pull_for)],
        queue := ⟨[], false, false, 2⟩, thread_count := 1, executed := [],
        callers_after_emplace := 0, callers_before_lock := 0 } 5 [] [] =
      some (Except.ok (),
        { pool_size := 1, max_pool_size := 3, max_queue_size := 2, keep_alive_time := 0,
          workers_map := [(0, WorkerPoint.at_pull_for), (1, WorkerPoint.at_pull_for)],
          queue := ⟨[5], false, false, 2⟩, thread_count := 2, executed := [],
          callers_after_emplace := 0, callers_before_lock := 0 }) ∧
     run [Action.submit_emplace 5, Action.submit_empty_test, Action.submit_locked]
      { pool_size := 1, max_pool_size := 3, max_queue_size := 2, keep_alive_time := 0,
        workers_map := [(0, WorkerPoint.at_pull_for)],
        queue := ⟨[], false, false, 2⟩, thread_count := 1, executed := [],
        callers_after_emplace := 0, callers_before_lock := 0 } =
      some
        { pool_size := 1, max_pool_size := 3, max_queue_size := 2, keep_alive_time := 0,
          workers_map := [(0, WorkerPoint.at_pull_for), (1, WorkerPoint.at_pull_for)],
          queue := ⟨[5], false, false, 2⟩, thread_count := 2, executed := [],
          callers_after_emplace := 0, callers_before_lock := 0 }) ∧
    (submit_among
      { pool_size := 1, max_pool_size := 1, max_queue_size := 2, keep_alive_time := 0,
        workers_map := [(0, WorkerPoint.at_pull_for)],
        queue := ⟨[], false, false, 2⟩, thread_count := 1, executed := [],
        callers_after_emplace := 0, callers_before_lock := 0 } 5 [] [] =
      some (Except.ok (),
        { pool_size := 1, max_pool_size := 1, max_queue_size := 2, keep_alive_time := 0,
          workers_map := [(0, WorkerPoint.at_pull_for)],
          queue := ⟨[5], false, false, 2⟩, thread_count := 1, executed := [],
          callers_after_emplace := 0, callers_before_lock := 0 }) ∧
     run [Action.submit_emplace 5, Action.submit_empty_test, Action.submit_locked]
      { pool_size := 1, max_pool_size := 1, max_queue_size := 2, keep_alive_time := 0,
        workers_map := [(0, WorkerPoint.at_pull_for)],
        queue := ⟨[], false, false, 2⟩, thread_count := 1, executed := [],
        callers_after_emplace := 0, callers_before_lock := 0 } =
      some
        { pool_size := 1, max_pool_size := 1, max_queue_size := 2, keep_alive_time := 0,
          workers_map := [(0, WorkerPoint.at_pull_for)],
          queue := ⟨[5], false, false, 2⟩, thread_count := 1, executed := [],
          callers_after_emplace := 0, callers_before_lock := 0 }) :=
  ⟨⟨(C17_submit_growth
      { pool_size := 1, max_pool_size := 3, max_queue_size := 2, keep_alive_time := 0,
        workers_map := [(0, WorkerPoint.at_pull_for)],
        queue := ⟨[], false, false, 2⟩, thread_count := 1, executed := [],
        callers_after_emplace := 0, callers_before_lock := 0 } 5
      [Action.poll_queue 0] [] (⟨[5], false, false, 2⟩ : ConcurrentQueue Func)
      { pool_size := 1, max_pool_size := 3, max_queue_size := 2, keep_alive_time := 0,
        workers_map := [(0, WorkerPoint.at_func 5)],
        queue := ⟨[], false, false, 2⟩, thread_count := 1, executed := [],
        callers_after_emplace := 0, callers_before_lock := 0 }
      { pool_size := 1, max_pool_size := 3, max_queue_size := 2, keep_alive_time := 0,
        workers_map := [(0, WorkerPoint.at_func 5)],
        queue := ⟨[], false, false, 2⟩, thread_count := 1, executed := [],
        callers_after_emplace := 0, callers_before_lock := 0 }
      (by decide) (by decide) (by decide)).1,
    (C17_submit_growth
      { pool_size := 1, max_pool_size := 3, max_queue_size := 2, keep_alive_time := 0,
        workers_map := [(0, WorkerPoint.at_pull_for)],
        queue := ⟨[], false, false, 2⟩, thread_count := 1, executed := [],
        callers_after_emplace := 0, callers_before_lock := 0 } 5
      [Action.poll_queue 0] [] (⟨[5], false, false, 2⟩ : ConcurrentQueue Func)
      { pool_size := 1, max_pool_size := 3, max_queue_size := 2, keep_alive_time := 0,
        workers_map := [(0, WorkerPoint.at_func 5)],
        queue := ⟨[], false, false, 2⟩, thread_count := 1, executed := [],
        callers_after_emplace := 0, callers_before_lock := 0 }
      { pool_size := 1, max_pool_size := 3, max_queue_size := 2, keep_alive_time := 0,
        workers_map := [(0, WorkerPoint.at_func 5)],
        queue := ⟨[], false, false, 2⟩, thread_count := 1, executed := [],
        callers_after_emplace := 0, callers_before_lock := 0 }
      (by decide) (by decide) (by decide)).2.2.2.2.2.2.1 (by decide)⟩,
   ⟨(C17_submit_growth
      { pool_size := 1, max_pool_size := 3, max_queue_size := 2, keep_alive_time := 0,
        workers_map := [(0, WorkerPoint.at_pull_for)],
        queue := ⟨[], false, false, 2⟩, thread_count := 1, executed := [],
        callers_after_emplace := 0, callers_before_lock := 0 } 5 [] [] (⟨[5], false, false, 2⟩ : ConcurrentQueue Func)
      { pool_size := 1, max_pool_size := 3, max_queue_size := 2, keep_alive_time := 0,
        workers_map := [(0, WorkerPoint.at_pull_for)],
        queue := ⟨[5], false, false, 2⟩, thread_count := 1, executed := [],
        callers_after_emplace := 0, callers_before_lock := 0 }
      { pool_size := 1, max_pool_size := 3, max_queue_size := 2, keep_alive_time := 0,
        workers_map := [(0, WorkerPoint.at_pull_for)],
        queue := ⟨[5], false, false, 2⟩, thread_count := 1, executed := [],
        callers_after_emplace := 0, callers_before_lock := 0 }
      (by decide) (by decide) (by decide)).1,
    (C17_submit_growth
      { pool_size := 1, max_pool_size := 3, max_queue_size := 2, keep_alive_time := 0,
        workers_map := [(0, WorkerPoint.at_pull_for)],
        queue := ⟨[], false, false, 2⟩, thread_count := 1, executed := [],
        callers_after_emplace := 0, callers_before_lock := 0 } 5 [] [] (⟨[5], false, false, 2⟩ : ConcurrentQueue Func)
      { pool_size := 1, max_pool_size := 3, max_queue_size := 2, keep_alive_time := 0,
        workers_map := [(0, WorkerPoint.at_pull_for)],
        queue := ⟨[5], false, false, 2⟩, thread_count := 1, executed := [],
        callers_after_emplace := 0, callers_before_lock := 0 }
      { pool_size := 1, max_pool_size := 3, max_queue_size := 2, keep_alive_time := 0,
        workers_map := [(0, WorkerPoint.at_pull_for)],
        queue := ⟨[5], false, false, 2⟩, thread_count := 1, executed := [],
        callers_after_emplace := 0, callers_before_lock := 0 }
      (by decide) (by decide) (by decide)).2.2.2.2.2.1 (by decide)⟩,
   ⟨(C17_submit_growth
      { pool_size := 1, max_pool_size := 1, max_queue_size := 2, keep_alive_time := 0,
        workers_map := [(0, WorkerPoint.at_pull_for)],
        queue := ⟨[], false, false, 2⟩, thread_count := 1, executed := [],
        callers_after_emplace := 0, callers_before_lock := 0 } 5 [] [] (⟨[5], false, false, 2⟩ : ConcurrentQueue Func)
      { pool_size := 1, max_pool_size := 1, max_queue_size := 2, keep_alive_time := 0,
        workers_map := [(0, WorkerPoint.at_pull_for)],
        queue := ⟨[5], false, false, 2⟩, thread_count := 1, executed := [],
        callers_after_emplace := 0, callers_before_lock := 0 }
      { pool_size := 1, max_pool_size := 1, max_queue_size := 2, keep_alive_time := 0,
        workers_map := [(0, WorkerPoint.at_pull_for)],
        queue := ⟨[5], false, false, 2⟩, thread_count := 1, executed := [],
        callers_after_emplace := 0, callers_before_lock := 0 }
      (by decide) (by decide) (by decide)).1,
    (C17_submit_growth
      { pool_size := 1, max_pool_size := 1, max_queue_size := 2, keep_alive_time := 0,
        workers_map := [(0, WorkerPoint.at_pull_for)],
        queue := ⟨[], false, false, 2⟩, thread_count := 1, executed := [],
        callers_after_emplace := 0, callers_before_lock := 0 } 5 [] [] (⟨[5], false, false, 2⟩ : ConcurrentQueue Func)
      { pool_size := 1, max_pool_size := 1, max_queue_size := 2, keep_alive_time := 0,
        workers_map := [(0, WorkerPoint.at_pull_for)],
        queue := ⟨[5], false, false, 2⟩, thread_count := 1, executed := [],
        callers_after_emplace := 0, callers_before_lock := 0 }
      { pool_size := 1, max_pool_size := 1, max_queue_size := 2, keep_alive_time := 0,
        workers_map := [(0, WorkerPoint.at_pull_for)],
        queue := ⟨[5], false, false, 2⟩, thread_count := 1, executed := [],
        callers_after_emplace := 0, callers_before_lock := 0 }
      (by decide) (by decide) (by decide)).2.2.2.2.2.1 (by decide)⟩⟩

/-- C20. The constructor does not check max_pool_size against pool_size: for every
configuration with 0 < max_pool_size < pool_size and a queue capacity other than 0,
construction succeeds, keeps max_pool_size as given and leaves the registry holding
pool_size workers, strictly more than max_pool_size. -/
theorem C20_constructor_exceeds_max (pool_size max_pool_size keep_alive_time
    max_queue_size : Nat) (indeterminate : Bool)
    (h0 : 0 < max_pool_size) (h1 : max_pool_size < pool_size) (hq : 0 < max_queue_size) :
    ∃ e : ThreadPoolExecutor,
      construct pool_size max_pool_size keep_alive_time max_queue_size indeterminate =
        Except.ok e ∧
      e.max_pool_size = max_pool_size ∧ e.workers_map.length = pool_size ∧
      e.max_pool_size < e.workers_map.length := by
  have hne : max_queue_size ≠ 0 := by omega
  have hm : max_pool_size ≠ 0 := by omega
  have hr := start_workers_registry pool_size
    { pool_size := pool_size,
      max_pool_size := if max_pool_size != 0 then max_pool_size else pool_size,
      max_queue_size := max_queue_size,
      keep_alive_time := keep_alive_time,
      workers_map := [],
      queue := ⟨[], false, indeterminate, max_queue_size⟩,
      thread_count := 0,
      executed := [],
      callers_after_emplace := 0,
      callers_before_lock := 0 }
  have hc : construct pool_size max_pool_size keep_alive_time max_queue_size indeterminate =
      Except.ok (start_workers pool_size
        { pool_size := pool_size,
          max_pool_size := if max_pool_size != 0 then max_pool_size else pool_size,
          max_queue_size := max_queue_size,
          keep_alive_time := keep_alive_time,
          workers_map := [],
          queue := ⟨[], false, indeterminate, max_queue_size⟩,
          thread_count := 0,
          executed := [],
          callers_after_emplace := 0,
          callers_before_lock := 0 }) := by
    simp [construct, ConcurrentQueue.construct, hne]
  have hmax : (if max_pool_size != 0 then max_pool_size else pool_size) = max_pool_size := by
    simp [hm]
  refine ⟨_, hc, ?_, ?_, ?_⟩
  · rw [hr.2.1]
    exact hmax
  · rw [hr.1]
    simp
  · rw [hr.1, hr.2.1]
    simp only [List.length_nil, Nat.zero_add]
    rw [hmax]
    exact h1

/-- C20 with pool_size 4 and max_pool_size 2: four workers are registered. -/
theorem C20_constructor_exceeds_max_witness :
    0 < 2 ∧ 2 < 4 ∧ 0 < 64 ∧
    ∃ e : ThreadPoolExecutor,
      construct 4 2 0 64 false = Except.ok e ∧
      e.max_pool_size = 2 ∧ e.workers_map.length = 4 ∧
      e.max_pool_size < e.workers_map.length :=
  ⟨by decide, by decide, by decide,
   C20_constructor_exceeds_max 4 2 0 64 false (by decide) (by decide) (by decide)⟩

end ThreadPoolExecutor
